import Mathlib

set_option autoImplicit false

/-!
AFIP electronic invoicing service: authentication cache and voucher issuing.

A shallow embedding of `src/servicios/afipService.js`, of the request validator of
`src/middleware/validation.js` and of the amounts computed by the invoice routes of `app.js`.

The JavaScript module keeps one piece of shared state, the `tokenCache` map, reads the
clock with `Date.now()`, and talks to the outside world through SOAP calls.  Here the
module state, the clock and a log of the calls made are one record `Estado`; the outside
world is an oracle `Entorno` that answers the k-th call of a run (k is the length of the
log) and says how much time the call takes.  Every `async` function of the source becomes
a function `Entorno → Estado → … → Except Falla α × Estado`: a thrown error is
`Except.error`, and the state is threaded through `try`/`catch` exactly as JavaScript
keeps it.
-/

namespace Afip

/-! ## Strings -/

/-- Whether the first list starts the second one. -/
def empiezaCon : List Char → List Char → Bool
  | [], _ => true
  | _ :: _, [] => false
  | a :: as, b :: bs => a == b && empiezaCon as bs

/-- Whether `needle` occurs in the given list as a contiguous block. -/
def incluyeLista (needle : List Char) : List Char → Bool
  | [] => needle.isEmpty
  | c :: cs => empiezaCon needle (c :: cs) || incluyeLista needle cs

/-- The method `String.prototype.includes`. -/
def includes (s needle : String) : Bool :=
  incluyeLista needle.toList s.toList

/-- Decimal digits of a natural number, least significant first; `fuel` bounds the length. -/
def digitosRev : Nat → Nat → List Char
  | 0, _ => []
  | fuel + 1, n =>
    Char.ofNat (48 + n % 10) :: (if n / 10 = 0 then [] else digitosRev fuel (n / 10))

/-- Template-literal rendering of an integer-valued number. -/
def renderInt (n : Int) : String :=
  let ds := (digitosRev (n.natAbs + 1) n.natAbs).reverse
  String.mk (if n < 0 then '-' :: ds else ds)

/-! ## Values -/

/-- JavaScript truthiness of a possibly undefined string. -/
def truthy : Option String → Bool
  | none => false
  | some s => s != ""

/-- Nearest IEEE-754 double to a natural number, ties to even (exact below `2^53`). -/
def redondearDoble (m : Nat) : Nat :=
  if m < 2 ^ 53 then m
  else
    let e := Nat.log2 m - 52
    let q := m / 2 ^ e
    let r := m % 2 ^ e
    let h := 2 ^ (e - 1)
    if r < h then q * 2 ^ e
    else if h < r then (q + 1) * 2 ^ e
    else if q % 2 = 0 then q * 2 ^ e
    else (q + 1) * 2 ^ e

/-- Sum of two integer-valued doubles. -/
def sumaNumeros (a b : Int) : Int :=
  let s := a + b
  if s < 0 then - (redondearDoble s.natAbs : Int) else (redondearDoble s.natAbs : Int)

/-- The session credential `{token, sign}`; a field is `none` when it is `undefined`. -/
structure Credenciales where
  token : Option String
  sign : Option String
deriving DecidableEq, Repr

/-- JavaScript values that flow through the invoice request. -/
inductive Valor
  | undefined
  | number (n : Int)
  | NaN
  | string (s : String)
  | otro (json : String)
deriving DecidableEq, Repr

/-- What `getLastVoucher` can hand back to its caller. -/
inductive UltimoComprobante
  | number (n : Int)
  | undefined
  | credenciales (c : Credenciales)
deriving DecidableEq, Repr

/-- The expression `lastVoucher + 1`. -/
def masUno : UltimoComprobante → Valor
  | .number n => .number (sumaNumeros n 1)
  | .undefined => .NaN
  | .credenciales _ => .string "[object Object]1"

/-! ## The token cache -/

/-- A value of `tokenCache`: `{credentials, timestamp}`. -/
structure EntradaCache where
  credentials : Credenciales
  timestamp : Int
deriving DecidableEq, Repr

/-- The `Map` from service name to cache entry, in insertion order. -/
abbrev TokenCache := List (String × EntradaCache)

/-- The constant `TOKEN_CACHE_DURATION`: 11 minutes in milliseconds. -/
def TOKEN_CACHE_DURATION : Int := 11 * 60 * 1000

/-- The method `Map.prototype.get`. -/
def mapGet : TokenCache → String → Option EntradaCache
  | [], _ => none
  | (k, v) :: rest, key => if k = key then some v else mapGet rest key

/-- The method `Map.prototype.set`: replace in place, or append. -/
def mapSet : TokenCache → String → EntradaCache → TokenCache
  | [], key, v => [(key, v)]
  | (k, w) :: rest, key, v => if k = key then (k, v) :: rest else (k, w) :: mapSet rest key v

/-- The method `Map.prototype.delete`. -/
def mapDelete : TokenCache → String → TokenCache
  | [], _ => []
  | (k, w) :: rest, key => if k = key then rest else (k, w) :: mapDelete rest key

/-- The method `Map.prototype.clear`. -/
def mapClear (_ : TokenCache) : TokenCache := []

/-! ## Errors -/

/-- The fault detail `error.root?.Envelope?.Body?.Fault?.detail` of a SOAP error. -/
structure DetalleFault where
  token : Option String
  sign : Option String
deriving DecidableEq, Repr

/-- An error raised by the SOAP library: its message and, when truthy, its fault detail. -/
structure ErrorRemoto where
  message : String
  detail : Option DetalleFault
deriving DecidableEq, Repr

/-- The errors the module can throw, one constructor per `throw` site; `remoto` is an error
raised by a library call and `typeError` one raised by the language itself. -/
inductive Falla
  | remoto (e : ErrorRemoto)
  | cms
  | credencialesAusentes
  | autenticacion
  | ultimoComprobante
  | sinDetalle
  | respuestaIvaInvalida
  | errorAfip (code : Int) (msg : String)
  | sinCondiciones
  | receptorInvalido (claseComprobante : String)
  | condicionExpirada (fechaHasta : String)
  | feDetReqInvalido (cantReg : Int)
  | typeError (message : String)
deriving DecidableEq, Repr

/-- The property `error.message`. -/
def Falla.message : Falla → String
  | .remoto e => e.message
  | .cms => "Error al generar el ticket de autenticación"
  | .credencialesAusentes => "No se encontraron las credenciales en la respuesta del WSAA"
  | .autenticacion => "Error de autenticación con AFIP"
  | .ultimoComprobante => "No se pudo obtener el último comprobante autorizado"
  | .sinDetalle => "No se encontró la respuesta de detalle en FeDetResp"
  | .respuestaIvaInvalida =>
    "Error al obtener la condición IVA del receptor. Respuesta no válida."
  | .errorAfip code msg => "Error de AFIP: " ++ renderInt code ++ " - " ++ msg
  | .sinCondiciones => "No se encontraron condiciones IVA para el receptor"
  | .receptorInvalido clase =>
    "El receptor no tiene una condición IVA válida para comprobantes tipo " ++ clase
  | .condicionExpirada fecha => "La condición IVA del receptor ha expirado el " ++ fecha
  | .feDetReqInvalido cantReg =>
    "FeDetReq debe ser un array con exactamente " ++ renderInt cantReg ++ " elementos."
  | .typeError m => m

/-- The property path `error.root?.Envelope?.Body?.Fault?.detail`. -/
def Falla.detail : Falla → Option DetalleFault
  | .remoto e => e.detail
  | _ => none

/-- The test `error.message && error.message.includes('alreadyAuthenticated')`. -/
def esAlreadyAuthenticated (error : Falla) : Bool :=
  includes error.message "alreadyAuthenticated"

/-! ## Requests and responses of the remote services -/

/-- The WSDL documents a SOAP client is created from. -/
inductive Wsdl
  | WSAA_WSDL
  | WSDL_WSFE
  | WSDL_CONSTANCIA
deriving DecidableEq, Repr

/-- The `Auth` block of a WSFE request. -/
structure Auth where
  Token : Option String
  Sign : Option String
  Cuit : Option String
deriving DecidableEq, Repr

/-- Arguments of `FECompUltimoAutorizado`. -/
structure ArgsUltimoAutorizado where
  auth : Auth
  PtoVta : Valor
  CbteTipo : Int
deriving DecidableEq, Repr

/-- The object `FECompUltimoAutorizadoResult`; `CbteNro` is `none` when the field is absent. -/
structure FECompUltimoAutorizadoResult where
  CbteNro : Option Int
deriving DecidableEq, Repr

/-- Request of `FEParamGetCondicionIvaReceptor`; `ClaseCmp` is set only for a truthy class. -/
structure ReqCondicionIva where
  auth : Auth
  ClaseCmp : Option String
deriving DecidableEq, Repr

/-- A receiver tax condition as returned by the gateway and as mapped by the module. -/
structure CondicionIva where
  Id : Valor
  Desc : Valor
  Cmp_Clase : Option String
  FechaDesde : Valor
  FechaHasta : Option String
deriving DecidableEq, Repr

/-- An element of `Errors.Err`. -/
structure ErrAfip where
  Code : Int
  Msg : String
deriving DecidableEq, Repr

/-- The object `FEParamGetCondicionIvaReceptorResult`; a missing `Errors`, `Errors.Err`,
`ResultGet` or `ResultGet.CondicionIvaReceptor` is the empty list, which the source treats
the same way. -/
structure FEParamGetCondicionIvaReceptorResult where
  Err : List ErrAfip
  CondicionIvaReceptor : List CondicionIva
deriving DecidableEq, Repr

/-- An element of the `Iva` array of a detail line. -/
structure AlicIva where
  Id : Valor
  BaseImp : Valor
  Importe : Valor
deriving DecidableEq, Repr

/-- A detail line of the caller's `datosFactura.FeDetReq`. -/
structure Det where
  Concepto : Valor
  DocTipo : Valor
  DocNro : Valor
  CbteDesde : Valor
  CbteHasta : Valor
  CbteFch : Valor
  ImpTotal : Valor
  ImpTotConc : Valor
  ImpNeto : Valor
  ImpOpEx : Valor
  ImpTrib : Valor
  ImpIVA : Valor
  MonId : Valor
  MonCotiz : Valor
  Iva : Option (List AlicIva)
deriving DecidableEq, Repr

/-- The header `FeCabReq`. -/
structure FeCabReq where
  CantReg : Int
  PtoVta : Valor
  CbteTipo : Int
deriving DecidableEq, Repr

/-- The argument `datosFactura` of `generarFactura` and `data` of `createNextVoucher`. -/
structure DatosFactura where
  FeCabReq : FeCabReq
  FeDetReq : List Det
deriving DecidableEq, Repr

/-- The attached `CondicionIvaReceptor: {Id, Desc}`. -/
structure CondicionIvaAdjunta where
  Id : Valor
  Desc : Valor
deriving DecidableEq, Repr

/-- An element of `FECAEDetRequest`. -/
structure FECAEDetRequest where
  Concepto : Valor
  DocTipo : Valor
  DocNro : Valor
  CbteDesde : Valor
  CbteHasta : Valor
  CbteFch : Valor
  ImpTotal : Valor
  ImpTotConc : Valor
  ImpNeto : Valor
  ImpOpEx : Valor
  ImpTrib : Valor
  ImpIVA : Valor
  MonId : Valor
  MonCotiz : Valor
  Iva : Option (List AlicIva)
  CondicionIvaReceptor : CondicionIvaAdjunta
deriving DecidableEq, Repr

/-- The request sent to `FECAESolicitar`. -/
structure SolicitudCAE where
  auth : Auth
  FeCabReq : FeCabReq
  FECAEDetRequest : List FECAEDetRequest
deriving DecidableEq, Repr

/-- An element of `FECAEDetResponse`. -/
structure FECAEDetResponse where
  CAE : Option String
  CAEFchVto : Option String
deriving DecidableEq, Repr

/-- The response of `FECAESolicitar`, reduced to what the module reads:
`FECAESolicitarResult?.FeDetResp?.FECAEDetResponse`, `none` when a link is missing. -/
structure RespuestaCAE where
  FECAEDetResponse : Option (List FECAEDetResponse)
deriving DecidableEq, Repr

/-- What the login call and the parsing of its answer can give. -/
inductive RespuestaLogin
  | rechazo (e : ErrorRemoto)
  | lanza (message : String)
  | parsed (credentials : Option Credenciales)
deriving DecidableEq, Repr

/-- What `consultarCondicionIvaReceptor` can hand back to its caller. -/
inductive RetornoCondiciones
  | condiciones (condicionesIva : List CondicionIva)
  | credenciales (c : Credenciales)
deriving DecidableEq, Repr

/-- What `createNextVoucher` can hand back to its caller. -/
inductive RetornoVoucher
  | autorizacion (CAE : Option String) (CAEFchVto : Option String) (voucherNumber : Valor)
  | credenciales (c : Credenciales)
deriving DecidableEq, Repr

/-! ## The outside world and the module state -/

/-- A call that leaves the module, as recorded in the log. -/
inductive Llamada
  | crearCMS (service : String)
  | createClient (wsdl : Wsdl)
  | loginCms (cms : String)
  | FECompUltimoAutorizado (args : ArgsUltimoAutorizado)
  | FEParamGetCondicionIvaReceptor (req : ReqCondicionIva)
  | FECAESolicitar (request : SolicitudCAE)
deriving DecidableEq, Repr

/-- The outside world.  The first argument of every answer is the position of the call in
the run, so an answer may depend on everything that happened before. -/
structure Entorno where
  /-- The variable `process.env.AFIP_CUIT`. -/
  AFIP_CUIT : Option String
  /-- Signing of the login ticket; `none` when `crearCMS` throws. -/
  crearCMS : Nat → String → Option String
  /-- The call `soap.createClientAsync`. -/
  createClient : Nat → Wsdl → Except ErrorRemoto Unit
  /-- The call `client.loginCmsAsync` followed by the parsing of `loginCmsReturn`. -/
  loginCms : Nat → String → RespuestaLogin
  /-- The call `client.FECompUltimoAutorizadoAsync`; `ok none` is a response without
  `FECompUltimoAutorizadoResult`. -/
  FECompUltimoAutorizado :
    Nat → ArgsUltimoAutorizado → Except ErrorRemoto (Option FECompUltimoAutorizadoResult)
  /-- The call `client.FEParamGetCondicionIvaReceptorAsync`; `ok none` is a response
  without `FEParamGetCondicionIvaReceptorResult`. -/
  FEParamGetCondicionIvaReceptor :
    Nat → ReqCondicionIva → Except ErrorRemoto (Option FEParamGetCondicionIvaReceptorResult)
  /-- The call `client.FECAESolicitarAsync`; `ok none` is an undefined response. -/
  FECAESolicitar : Nat → SolicitudCAE → Except ErrorRemoto (Option RespuestaCAE)
  /-- The time value of `new Date(s)`; `none` for an invalid date. -/
  newDate : String → Option Int
  /-- Milliseconds that pass during the call at the given position. -/
  demora : Nat → Nat

/-- The module state: the cache, the clock `Date.now()` and the log of calls made. -/
structure Estado where
  tokenCache : TokenCache
  now : Int
  traza : List Llamada
deriving DecidableEq, Repr

/-- Record a call and let its time pass. -/
def registrar (env : Entorno) (st : Estado) (ll : Llamada) : Estado :=
  { st with traza := st.traza ++ [ll], now := st.now + (env.demora st.traza.length : Int) }

/-- The function `limpiarCacheTokens`. -/
def limpiarCacheTokens (st : Estado) : Estado :=
  { st with tokenCache := mapClear st.tokenCache }

/-! ## Authentication -/

/-- The guard of `obtenerTokenSign`:
`cachedToken && Date.now() - cachedToken.timestamp < TOKEN_CACHE_DURATION`. -/
def tokenEnCache (st : Estado) (service : String) : Option Credenciales :=
  match mapGet st.tokenCache service with
  | some cachedToken =>
    if st.now - cachedToken.timestamp < TOKEN_CACHE_DURATION then some cachedToken.credentials
    else none
  | none => none

/-- The assignment `tokenCache.set(service, { credentials, timestamp: Date.now() })`. -/
def guardarEnCache (st : Estado) (service : String) (credentials : Credenciales) : Estado :=
  { st with tokenCache :=
      mapSet st.tokenCache service { credentials := credentials, timestamp := st.now } }

/-- The body of the inner `try` of `obtenerTokenSign`: the login call, the parsing of its
answer and the caching of the credentials. -/
def solicitarLogin (env : Entorno) (st : Estado) (service cms : String) :
    Except Falla Credenciales × Estado :=
  let st1 := registrar env st (.loginCms cms)
  match env.loginCms st.traza.length cms with
  | .rechazo e => (.error (.remoto e), st1)
  | .lanza m => (.error (.remoto { message := m, detail := none }), st1)
  | .parsed none => (.error .credencialesAusentes, st1)
  | .parsed (some credentials) =>
    if !truthy credentials.token || !truthy credentials.sign then
      (.error .credencialesAusentes, st1)
    else (.ok credentials, guardarEnCache st1 service credentials)

/-- The inner `catch` of `obtenerTokenSign`: on an already-authenticated error with a
truthy fault detail, cache and return the credentials read from it; otherwise rethrow. -/
def extraerDelError (st : Estado) (service : String) (error : Falla) :
    Except Falla Credenciales × Estado :=
  if esAlreadyAuthenticated error then
    match error.detail with
    | some errorResponse =>
      let credentials : Credenciales :=
        { token := errorResponse.token, sign := errorResponse.sign }
      (.ok credentials, guardarEnCache st service credentials)
    | none => (.error error, st)
  else (.error error, st)

/-- The body of the outer `try` of `obtenerTokenSign`, after the cache miss. -/
def loginWsaa (env : Entorno) (st : Estado) (service : String) :
    Except Falla Credenciales × Estado :=
  let st1 := registrar env st (.crearCMS service)
  match env.crearCMS st.traza.length service with
  | none => (.error .cms, st1)
  | some cms =>
    let st2 := registrar env st1 (.createClient .WSAA_WSDL)
    match env.createClient st1.traza.length .WSAA_WSDL with
    | .error e => (.error (.remoto e), st2)
    | .ok () =>
      match solicitarLogin env st2 service cms with
      | (.ok credentials, st3) => (.ok credentials, st3)
      | (.error error, st3) => extraerDelError st3 service error

/-- The function `obtenerTokenSign`. -/
def obtenerTokenSign (env : Entorno) (st : Estado) (service : String) :
    Except Falla Credenciales × Estado :=
  match tokenEnCache st service with
  | some credentials => (.ok credentials, st)
  | none =>
    match loginWsaa env st service with
    | (.ok credentials, st1) => (.ok credentials, st1)
    | (.error _, st1) => (.error .autenticacion, st1)

/-- The function `manejarErrorAutenticacion`. -/
def manejarErrorAutenticacion (env : Entorno) (st : Estado) (error : Falla)
    (service : String) : Except Falla Credenciales × Estado :=
  if esAlreadyAuthenticated error then
    obtenerTokenSign env (limpiarCacheTokens st) service
  else (.error error, st)

/-! ## Voucher sequencing -/

/-- The body of the `try` of `getLastVoucher`. -/
def consultarUltimo (env : Entorno) (st : Estado) (salesPoint : Valor) (type : Int) :
    Except Falla UltimoComprobante × Estado :=
  match obtenerTokenSign env st "wsfe" with
  | (.error error, st1) => (.error error, st1)
  | (.ok credentials, st1) =>
    let st2 := registrar env st1 (.createClient .WSDL_WSFE)
    match env.createClient st1.traza.length .WSDL_WSFE with
    | .error e => (.error (.remoto e), st2)
    | .ok () =>
      let args : ArgsUltimoAutorizado :=
        { auth := { Token := credentials.token, Sign := credentials.sign,
                    Cuit := env.AFIP_CUIT },
          PtoVta := salesPoint, CbteTipo := type }
      let st3 := registrar env st2 (.FECompUltimoAutorizado args)
      match env.FECompUltimoAutorizado st2.traza.length args with
      | .error e => (.error (.remoto e), st3)
      | .ok none => (.error .ultimoComprobante, st3)
      | .ok (some result) =>
        match result.CbteNro with
        | some n => (.ok (.number n), st3)
        | none => (.ok .undefined, st3)

/-- The function `getLastVoucher`. -/
def getLastVoucher (env : Entorno) (st : Estado) (salesPoint : Valor) (type : Int) :
    Except Falla UltimoComprobante × Estado :=
  match consultarUltimo env st salesPoint type with
  | (.ok lastVoucher, st1) => (.ok lastVoucher, st1)
  | (.error error, st1) =>
    if esAlreadyAuthenticated error then
      match manejarErrorAutenticacion env st1 error "wsfe" with
      | (.ok credentials, st2) => (.ok (.credenciales credentials), st2)
      | (.error e, st2) => (.error e, st2)
    else (.error error, st1)

/-! ## Receiver tax conditions -/

/-- The body of the `try` of `consultarCondicionIvaReceptor`. -/
def pedirCondiciones (env : Entorno) (st : Estado) (claseComprobante : Option String) :
    Except Falla (List CondicionIva) × Estado :=
  match obtenerTokenSign env st "wsfe" with
  | (.error error, st1) => (.error error, st1)
  | (.ok credentials, st1) =>
    let st2 := registrar env st1 (.createClient .WSDL_WSFE)
    match env.createClient st1.traza.length .WSDL_WSFE with
    | .error e => (.error (.remoto e), st2)
    | .ok () =>
      let req : ReqCondicionIva :=
        { auth := { Token := credentials.token, Sign := credentials.sign,
                    Cuit := env.AFIP_CUIT },
          ClaseCmp := if truthy claseComprobante then claseComprobante else none }
      let st3 := registrar env st2 (.FEParamGetCondicionIvaReceptor req)
      match env.FEParamGetCondicionIvaReceptor st2.traza.length req with
      | .error e => (.error (.remoto e), st3)
      | .ok none => (.error .respuestaIvaInvalida, st3)
      | .ok (some result) =>
        match result.Err with
        | error :: _ => (.error (.errorAfip error.Code error.Msg), st3)
        | [] =>
          if result.CondicionIvaReceptor.length = 0 then (.error .sinCondiciones, st3)
          else
            (.ok (result.CondicionIvaReceptor.map fun condicion =>
                { Id := condicion.Id, Desc := condicion.Desc,
                  Cmp_Clase := condicion.Cmp_Clase, FechaDesde := condicion.FechaDesde,
                  FechaHasta := condicion.FechaHasta }), st3)

/-- The function `consultarCondicionIvaReceptor`. -/
def consultarCondicionIvaReceptor (env : Entorno) (st : Estado)
    (claseComprobante : Option String) : Except Falla RetornoCondiciones × Estado :=
  match pedirCondiciones env st claseComprobante with
  | (.ok condicionesIva, st1) => (.ok (.condiciones condicionesIva), st1)
  | (.error error, st1) =>
    if esAlreadyAuthenticated error then
      match manejarErrorAutenticacion env st1 error "wsfe" with
      | (.ok credentials, st2) => (.ok (.credenciales credentials), st2)
      | (.error e, st2) => (.error e, st2)
    else (.error error, st1)

/-! ## Invoice authorization -/

/-- The class of a voucher: `datosFactura.FeCabReq.CbteTipo === 1 ? 'A' : 'B'`. -/
def claseDe (datosFactura : DatosFactura) : String :=
  if datosFactura.FeCabReq.CbteTipo = 1 then "A" else "B"

/-- The predicate `condicion => condicion.Cmp_Clase === claseComprobante`. -/
def esDeClase (claseComprobante : String) (condicion : CondicionIva) : Bool :=
  condicion.Cmp_Clase == some claseComprobante

/-- The test
`condicionIvaReceptor.FechaHasta && new Date(condicionIvaReceptor.FechaHasta) < fechaActual`. -/
def haExpirado (env : Entorno) (fechaActual : Int) (condicion : CondicionIva) : Bool :=
  match condicion.FechaHasta with
  | none => false
  | some fecha =>
    fecha != "" &&
      (match env.newDate fecha with
       | some t => decide (t < fechaActual)
       | none => false)

/-- The mapping of a detail line into a `FECAEDetRequest` element. -/
def aDetRequest (condicionIvaReceptor : CondicionIva) (det : Det) : FECAEDetRequest :=
  { Concepto := det.Concepto, DocTipo := det.DocTipo, DocNro := det.DocNro,
    CbteDesde := det.CbteDesde, CbteHasta := det.CbteHasta, CbteFch := det.CbteFch,
    ImpTotal := det.ImpTotal, ImpTotConc := det.ImpTotConc, ImpNeto := det.ImpNeto,
    ImpOpEx := det.ImpOpEx, ImpTrib := det.ImpTrib, ImpIVA := det.ImpIVA,
    MonId := det.MonId, MonCotiz := det.MonCotiz, Iva := det.Iva,
    CondicionIvaReceptor := { Id := condicionIvaReceptor.Id, Desc := condicionIvaReceptor.Desc } }

/-- The part of `generarFactura` after the eligibility checks: authentication, client
creation, the check of `FeDetReq` against `CantReg`, and the authorization call. -/
def solicitarCAE (env : Entorno) (st : Estado) (cuitEmisor : Option String)
    (datosFactura : DatosFactura) (condicionIvaReceptor : CondicionIva) :
    Except Falla (Option RespuestaCAE) × Estado :=
  match obtenerTokenSign env st "wsfe" with
  | (.error error, st1) => (.error error, st1)
  | (.ok credentials, st1) =>
    let st2 := registrar env st1 (.createClient .WSDL_WSFE)
    match env.createClient st1.traza.length .WSDL_WSFE with
    | .error e => (.error (.remoto e), st2)
    | .ok () =>
      if (datosFactura.FeDetReq.length : Int) ≠ datosFactura.FeCabReq.CantReg then
        (.error (.feDetReqInvalido datosFactura.FeCabReq.CantReg), st2)
      else
        let request : SolicitudCAE :=
          { auth := { Token := credentials.token, Sign := credentials.sign,
                      Cuit := cuitEmisor },
            FeCabReq := { CantReg := datosFactura.FeCabReq.CantReg,
                          PtoVta := datosFactura.FeCabReq.PtoVta,
                          CbteTipo := datosFactura.FeCabReq.CbteTipo },
            FECAEDetRequest := datosFactura.FeDetReq.map (aDetRequest condicionIvaReceptor) }
        let st3 := registrar env st2 (.FECAESolicitar request)
        match env.FECAESolicitar st2.traza.length request with
        | .error e => (.error (.remoto e), st3)
        | .ok response => (.ok response, st3)

/-- The function `generarFactura`. -/
def generarFactura (env : Entorno) (st : Estado) (cuitEmisor : Option String)
    (datosFactura : DatosFactura) : Except Falla (Option RespuestaCAE) × Estado :=
  let claseComprobante := claseDe datosFactura
  match consultarCondicionIvaReceptor env st (some claseComprobante) with
  | (.error error, st1) => (.error error, st1)
  | (.ok (.credenciales _), st1) =>
    (.error (.typeError "condicionesIva.some is not a function"), st1)
  | (.ok (.condiciones condicionesIva), st1) =>
    if !condicionesIva.any (esDeClase claseComprobante) then
      (.error (.receptorInvalido claseComprobante), st1)
    else
      match condicionesIva.find? (esDeClase claseComprobante) with
      | none =>
        (.error (.typeError "Cannot read properties of undefined (reading 'FechaHasta')"), st1)
      | some condicionIvaReceptor =>
        if haExpirado env st1.now condicionIvaReceptor then
          (.error (.condicionExpirada (condicionIvaReceptor.FechaHasta.getD "")), st1)
        else solicitarCAE env st1 cuitEmisor datosFactura condicionIvaReceptor

/-- The assignments `data.FeDetReq[0].CbteDesde = voucherNumber` and
`data.FeDetReq[0].CbteHasta = voucherNumber`; `none` when there is no first line. -/
def asignarNumero (data : DatosFactura) (voucherNumber : Valor) : Option DatosFactura :=
  match data.FeDetReq with
  | [] => none
  | det :: resto =>
    some { data with
      FeDetReq := { det with CbteDesde := voucherNumber, CbteHasta := voucherNumber } :: resto }

/-- The body of the `try` of `createNextVoucher`. -/
def emitirSiguiente (env : Entorno) (st : Estado) (data : DatosFactura) :
    Except Falla RetornoVoucher × Estado :=
  match getLastVoucher env st data.FeCabReq.PtoVta data.FeCabReq.CbteTipo with
  | (.error error, st1) => (.error error, st1)
  | (.ok lastVoucher, st1) =>
    let voucherNumber := masUno lastVoucher
    match asignarNumero data voucherNumber with
    | none =>
      (.error (.typeError "Cannot set properties of undefined (setting 'CbteDesde')"), st1)
    | some data1 =>
      match generarFactura env st1 env.AFIP_CUIT data1 with
      | (.error error, st2) => (.error error, st2)
      | (.ok none, st2) =>
        (.error (.typeError
          "Cannot read properties of undefined (reading 'FECAESolicitarResult')"), st2)
      | (.ok (some factura), st2) =>
        match factura.FECAEDetResponse with
        | none => (.error .sinDetalle, st2)
        | some [] => (.error .sinDetalle, st2)
        | some (primero :: _) =>
          (.ok (.autorizacion primero.CAE primero.CAEFchVto voucherNumber), st2)

/-- The function `createNextVoucher`. -/
def createNextVoucher (env : Entorno) (st : Estado) (data : DatosFactura) :
    Except Falla RetornoVoucher × Estado :=
  match emitirSiguiente env st data with
  | (.ok resultado, st1) => (.ok resultado, st1)
  | (.error error, st1) =>
    if esAlreadyAuthenticated error then
      match manejarErrorAutenticacion env st1 error "wsfe" with
      | (.ok credentials, st2) => (.ok (.credenciales credentials), st2)
      | (.error e, st2) => (.error e, st2)
    else (.error error, st1)

/-! ## Reading the log -/

/-- The requests submitted to the authorization endpoint, in order. -/
def solicitudesCAE : List Llamada → List SolicitudCAE
  | [] => []
  | .FECAESolicitar request :: resto => request :: solicitudesCAE resto
  | _ :: resto => solicitudesCAE resto

/-- The number of login calls made to the authentication service. -/
def llamadasLogin : List Llamada → Nat
  | [] => 0
  | .loginCms _ :: resto => llamadasLogin resto + 1
  | _ :: resto => llamadasLogin resto

/-- The number of calls made to a remote endpoint: login, last voucher, tax conditions
and authorization. -/
def llamadasRemotas : List Llamada → Nat
  | [] => 0
  | .loginCms _ :: resto => llamadasRemotas resto + 1
  | .FECompUltimoAutorizado _ :: resto => llamadasRemotas resto + 1
  | .FEParamGetCondicionIvaReceptor _ :: resto => llamadasRemotas resto + 1
  | .FECAESolicitar _ :: resto => llamadasRemotas resto + 1
  | _ :: resto => llamadasRemotas resto

/-! ## Sample environments and requests -/

/-- A tax condition of class B without end date. -/
def condicionB : CondicionIva :=
  { Id := .number 5, Desc := .string "Consumidor Final", Cmp_Clase := some "B",
    FechaDesde := .undefined, FechaHasta := none }

/-- An authorization response with one detail element. -/
def respuestaFeliz : RespuestaCAE :=
  { FECAEDetResponse := some [{ CAE := some "12345678901234", CAEFchVto := some "20261116" }] }

/-- An environment where every call succeeds: the last authorized voucher is 999999 and
the authorization answers with one detail element. -/
def entornoFeliz : Entorno :=
  { AFIP_CUIT := some "20111111112",
    crearCMS := fun _ _ => some "cms",
    createClient := fun _ _ => .ok (),
    loginCms := fun _ _ => .parsed (some { token := some "T", sign := some "S" }),
    FECompUltimoAutorizado := fun _ _ => .ok (some { CbteNro := some 999999 }),
    FEParamGetCondicionIvaReceptor := fun _ _ =>
      .ok (some { Err := [], CondicionIvaReceptor := [condicionB] }),
    FECAESolicitar := fun _ _ => .ok (some respuestaFeliz),
    newDate := fun _ => none,
    demora := fun _ => 100 }

/-- A state with an empty cache and an empty log. -/
def estadoInicial : Estado := { tokenCache := [], now := 1000000, traza := [] }

/-- The detail line built by the route `/afip/ticket-test`. -/
def detPrueba : Det :=
  { Concepto := .number 1, DocTipo := .number 99, DocNro := .number 0,
    CbteDesde := .undefined, CbteHasta := .undefined, CbteFch := .string "20261106",
    ImpTotal := .number 100, ImpTotConc := .number 0, ImpNeto := .otro "82.64",
    ImpOpEx := .number 0, ImpTrib := .number 0, ImpIVA := .otro "17.36",
    MonId := .string "PES", MonCotiz := .number 1,
    Iva := some [{ Id := .number 5, BaseImp := .otro "82.64", Importe := .otro "17.36" }] }

/-- The request built by the route `/afip/ticket-test`: one line of class B. -/
def facturaPrueba : DatosFactura :=
  { FeCabReq := { CbteTipo := 6, CantReg := 1, PtoVta := .number 1 },
    FeDetReq := [detPrueba] }

/-- The fault the authentication service raises while a ticket is still valid. -/
def mensajeYaAutenticado : String :=
  "ns1:coe.alreadyAuthenticated: El CEE ya posee un TA valido para el acceso al WSN solicitado"

/-- An environment whose login call is always rejected as already authenticated, with the
given fault detail. -/
def entornoYaAutenticado (detail : Option DetalleFault) : Entorno :=
  { entornoFeliz with
    loginCms := fun _ _ => .rechazo { message := mensajeYaAutenticado, detail := detail } }

/-- A state whose cache holds an entry for `wsfe` that is exactly 11 minutes old and a
recent entry for another service. -/
def estadoVencido : Estado :=
  { tokenCache :=
      [("wsfe", { credentials := { token := some "T0", sign := some "S0" },
                  timestamp := 340000 }),
       ("ws_sr_constancia_inscripcion",
         { credentials := { token := some "T1", sign := some "S1" }, timestamp := 900000 })],
    now := 1000000, traza := [] }

/-- The happy environment with a chosen answer for the field `CbteNro`. -/
def entornoUltimo (cbteNro : Option Int) : Entorno :=
  { entornoFeliz with
    FECompUltimoAutorizado := fun _ _ => .ok (some { CbteNro := cbteNro }) }

/-- The time value that the `Date` constructor of Node gives for the date texts of the
examples: an ISO date is midnight UTC of that day; a text of eight digits such as
`20200101`, the text `NULL` and every other text used here are invalid dates. -/
def fechaMuestra (texto : String) : Option Int :=
  if texto = "2020-01-01" then some 1577836800000
  else if texto = "2026-11-05" then some 1793836800000
  else if texto = "2026-11-06" then some 1793923200000
  else none

/-- A tax condition of class B with the given text in `FechaHasta`. -/
def condicionHasta (fechaHasta : String) : CondicionIva :=
  { condicionB with FechaHasta := some fechaHasta }

/-- A tax condition of class B that ended on 5 November 2026. -/
def condicionBVencida : CondicionIva :=
  { condicionB with FechaHasta := some "2026-11-05" }

/-- The happy environment with a chosen list of tax conditions and the `Date` constructor
of the examples. -/
def entornoCondiciones (condiciones : List CondicionIva) : Entorno :=
  { entornoFeliz with
    FEParamGetCondicionIvaReceptor := fun _ _ =>
      .ok (some { Err := [], CondicionIvaReceptor := condiciones }),
    newDate := fechaMuestra }

/-- A state with an empty cache whose clock shows 6 November 2026, 12:00 UTC. -/
def estadoNoviembre : Estado := { tokenCache := [], now := 1793966400000, traza := [] }

/-- An invoice of class A with one line. -/
def facturaA : DatosFactura :=
  { FeCabReq := { CbteTipo := 1, CantReg := 1, PtoVta := .number 1 },
    FeDetReq := [detPrueba] }

/-- A request with two detail lines under a header that announces one. -/
def facturaDosLineas : DatosFactura :=
  { facturaPrueba with FeDetReq := [detPrueba, detPrueba] }

/-- The happy environment, except that the authorization call is rejected with an
already-authenticated fault. -/
def entornoCAERechazada : Entorno :=
  { entornoFeliz with
    FECAESolicitar := fun _ _ => .error { message := mensajeYaAutenticado, detail := none } }

/-- The happy environment, except that the last-voucher call is rejected with an
already-authenticated fault. -/
def entornoUltimoRechazado : Entorno :=
  { entornoFeliz with
    FECompUltimoAutorizado := fun _ _ =>
      .error { message := mensajeYaAutenticado, detail := none } }

/-! ## The background sweep of the cache -/

/-- The function `cleanExpiredTokens`: walk over the entries and delete the key of every
entry whose age exceeds `TOKEN_CACHE_DURATION`. -/
def cleanExpiredTokens (st : Estado) : Estado :=
  let now := st.now
  let barrido := st.tokenCache.foldl
    (fun cache entrada =>
      if now - entrada.2.timestamp > TOKEN_CACHE_DURATION then mapDelete cache entrada.1
      else cache)
    st.tokenCache
  { st with tokenCache := barrido }

/-- A list of entries is a `Map` when no key occurs twice. -/
def clavesUnicas (cache : TokenCache) : Prop := (cache.map Prod.fst).Nodup

instance (cache : TokenCache) : Decidable (clavesUnicas cache) := by
  unfold clavesUnicas
  infer_instance

/-- A state whose cache holds an entry older than 11 minutes, an entry that is exactly 11
minutes old and a recent one. -/
def estadoTresEntradas : Estado :=
  { tokenCache :=
      [("ws_viejo", { credentials := { token := some "T9", sign := some "S9" },
                      timestamp := 339999 }),
       ("wsfe", { credentials := { token := some "T0", sign := some "S0" },
                  timestamp := 340000 }),
       ("ws_sr_constancia_inscripcion",
         { credentials := { token := some "T1", sign := some "S1" }, timestamp := 900000 })],
    now := 1000000, traza := [] }

/-- A request with two detail lines under a header that announces two; the second line
carries the numbers 7 and 8 given by the caller. -/
def facturaLote : DatosFactura :=
  { FeCabReq := { CbteTipo := 6, CantReg := 2, PtoVta := .number 1 },
    FeDetReq := [detPrueba, { detPrueba with CbteDesde := .number 7, CbteHasta := .number 8 }] }

/-! ## Numbers of the request validation

`middleware/validation.js` reads the fields of the request body with `parseInt` and
`parseFloat`.  The result of `parseInt` is `NaN`, an infinity, or an integer; it is computed
here as the language does, rounding to a double.  The result of `parseFloat` is a number
in general; the function itself is a parameter of the validation. -/

/-- A number returned by `parseInt`. -/
inductive NumeroEntero
  | NaN
  | entero (z : Int)
  | infinito
  | menosInfinito
deriving DecidableEq, Repr

/-- A number in general; a finite value is held exactly. -/
inductive Numero
  | NaN
  | finito (q : ℚ)
  | infinito
  | menosInfinito
deriving DecidableEq, Repr

/-- The function `isNaN` on a result of `parseInt`. -/
def NumeroEntero.isNaN : NumeroEntero → Bool
  | .NaN => true
  | _ => false

/-- The comparison `x < 0`. -/
def NumeroEntero.menorQueCero : NumeroEntero → Bool
  | .entero z => decide (z < 0)
  | .menosInfinito => true
  | _ => false

/-- The comparison `x <= 0`. -/
def NumeroEntero.menorIgualCero : NumeroEntero → Bool
  | .entero z => decide (z ≤ 0)
  | .menosInfinito => true
  | _ => false

/-- The function `isNaN` on a number. -/
def Numero.isNaN : Numero → Bool
  | .NaN => true
  | _ => false

/-- The comparison `x <= 0` on a number. -/
def Numero.menorIgualCero : Numero → Bool
  | .finito q => decide (q ≤ 0)
  | .menosInfinito => true
  | _ => false

/-- A field of the parsed JSON body.  A number is held by its `ToString` text, an array or
object likewise. -/
inductive Campo
  | undefined
  | null
  | boolean (b : Bool)
  | number (texto : String)
  | string (s : String)
  | objeto (texto : String)
deriving DecidableEq, Repr

/-- The abstract operation `ToString`. -/
def Campo.aTexto : Campo → String
  | .undefined => "undefined"
  | .null => "null"
  | .boolean true => "true"
  | .boolean false => "false"
  | .number texto => texto
  | .string s => s
  | .objeto texto => texto

/-- The test `!x`: the values `undefined`, `null`, `false`, `0`, `NaN` and the empty string
are falsy. -/
def Campo.falsy : Campo → Bool
  | .undefined => true
  | .null => true
  | .boolean b => !b
  | .number texto => texto == "0" || texto == "NaN"
  | .string s => s == ""
  | .objeto _ => false

/-- White space and line terminators, which `parseInt` skips at the start. -/
def esEspacio (c : Char) : Bool :=
  let n := c.toNat
  n == 9 || n == 10 || n == 11 || n == 12 || n == 13 || n == 32 || n == 160 || n == 5760 ||
    (8192 ≤ n && n ≤ 8202) || n == 8232 || n == 8233 || n == 8239 || n == 8287 ||
    n == 12288 || n == 65279

/-- The value of a character as a digit, letters counting from ten. -/
def valorDigito (c : Char) : Option Nat :=
  let n := c.toNat
  if 48 ≤ n ∧ n ≤ 57 then some (n - 48)
  else if 97 ≤ n ∧ n ≤ 122 then some (n - 87)
  else if 65 ≤ n ∧ n ≤ 90 then some (n - 55)
  else none

/-- The longest initial run of digits of the radix, as digit values. -/
def prefijoDigitos (radix : Nat) : List Char → List Nat
  | [] => []
  | c :: cs =>
    match valorDigito c with
    | some d => if d < radix then d :: prefijoDigitos radix cs else []
    | none => []

/-- The double nearest to a signed natural number: beyond the largest double it is an
infinity. -/
def aDoble (negativo : Bool) (m : Nat) : NumeroEntero :=
  if 2 ^ 1024 - 2 ^ 970 ≤ m then (if negativo then .menosInfinito else .infinito)
  else if negativo then .entero (-(redondearDoble m : Int))
  else .entero (redondearDoble m : Int)

/-- The function `parseInt` of one argument, on the text of its argument: skip white
space, read a sign, read `0x` or `0X` as the mark of radix 16, take the longest run of
digits; no digit gives `NaN`. -/
def parseInt (texto : String) : NumeroEntero :=
  let S := texto.toList.dropWhile esEspacio
  let negativo := match S with
    | '-' :: _ => true
    | _ => false
  let S1 := match S with
    | '-' :: r => r
    | '+' :: r => r
    | _ => S
  let hex := match S1 with
    | '0' :: 'x' :: _ => true
    | '0' :: 'X' :: _ => true
    | _ => false
  let radix := if hex then 16 else 10
  let S2 := if hex then S1.drop 2 else S1
  let Z := prefijoDigitos radix S2
  if Z.isEmpty then .NaN
  else aDoble negativo (Z.foldl (fun acc d => acc * radix + d) 0)

/-! ## The validation of an invoice request -/

/-- The body of a `POST /afip/ticket` request, reduced to the fields the validator reads. -/
structure CuerpoFactura where
  doctipo : Campo
  docnro : Campo
  monto : Campo
  tipfac : Campo
deriving DecidableEq, Repr

/-- The object `datos` of a valid result. -/
structure DatosValidados where
  docTipoNum : NumeroEntero
  docNroNum : NumeroEntero
  tipFacNum : NumeroEntero
  montoNum : Numero
deriving DecidableEq, Repr

/-- The result of `validarDatosFactura`: `{valido: false, error}` or `{valido: true, datos}`. -/
inductive Validacion
  | invalido (error : String)
  | valido (datos : DatosValidados)
deriving DecidableEq, Repr

/-- The function `validarDatosFactura`; `parseFloat` is the function of the language. -/
def validarDatosFactura (parseFloat : String → Numero) (datos : CuerpoFactura) : Validacion :=
  if datos.doctipo = .undefined ∨ datos.docnro = .undefined ∨ datos.monto.falsy = true
      ∨ datos.tipfac.falsy = true then
    .invalido "Campos requeridos: doctipo, docnro, monto, tipfac"
  else
    let docTipoNum := parseInt datos.doctipo.aTexto
    if docTipoNum.isNaN = true ∨ docTipoNum.menorQueCero = true then
      .invalido "Tipo de documento inválido"
    else
      let docNroNum := if docTipoNum = .entero 99 then .entero 0 else parseInt datos.docnro.aTexto
      if docTipoNum ≠ .entero 99
          ∧ (docNroNum.isNaN = true ∨ docNroNum.menorIgualCero = true) then
        .invalido "Número de documento inválido"
      else
        let tipFacNum := parseInt datos.tipfac.aTexto
        if ¬ (tipFacNum = .entero 1 ∨ tipFacNum = .entero 6) then
          .invalido "Tipo de factura debe ser 1 (A) o 6 (B)"
        else
          let montoNum := parseFloat datos.monto.aTexto
          if montoNum.isNaN = true ∨ montoNum.menorIgualCero = true then
            .invalido "Monto debe ser mayor a 0"
          else
            .valido { docTipoNum := docTipoNum, docNroNum := docNroNum,
                      tipFacNum := tipFacNum, montoNum := montoNum }

/-- A stand-in for `parseFloat` that knows the amount of the examples. -/
def parseFloatMuestra (texto : String) : Numero :=
  if texto = "100" then .finito 100 else .NaN

/-- A body for the final consumer: document type 99, amount 100, invoice type 6. -/
def cuerpoConsumidorFinal : CuerpoFactura :=
  { doctipo := .number "99", docnro := .number "0", monto := .number "100",
    tipfac := .number "6" }

/-- A body whose document type is a run of 400 digits. -/
def cuerpoDocTipoEnorme : CuerpoFactura :=
  { doctipo := .string (String.mk (List.replicate 400 '9')), docnro := .string "20111111112",
    monto := .string "100", tipfac := .string "6" }

/-! ## The amounts of an invoice (`app.js`)

The two invoice routes split the total into net amount and tax with the arithmetic of
JavaScript numbers.  A finite number is the rational it stands for; `/` and `-` give the
double nearest to the exact result (ties to the even significand, overflow to an infinity,
gradual underflow); `toFixed(2)` writes the nearest multiple of a cent to the exact value
of its double, the larger one of two equally near, and the text of the number itself from
`10^21` on; `parseFloat` reads a decimal as the double nearest to it.  The zero has no
sign here. -/

/-- The power of two with an integer exponent. -/
def pot2 (e : Int) : ℚ :=
  if 0 ≤ e then 2 ^ e.toNat else 1 / 2 ^ (-e).toNat

/-- The binary exponent of a positive rational `m`: the `e` with `2 ^ e ≤ m < 2 ^ (e + 1)`. -/
def exponente (m : ℚ) : Int :=
  let e0 : Int := (Nat.log2 m.num.natAbs : Int) - (Nat.log2 m.den : Int)
  if m < pot2 e0 then e0 - 1 else e0

/-- The nearest integer, the even one of two equally near. -/
def redondearPar (k : ℚ) : Int :=
  let f := ⌊k⌋
  if k - f < 1 / 2 then f
  else if 1 / 2 < k - f then f + 1
  else if f % 2 = 0 then f
  else f + 1

/-- The double nearest to a rational: 53 bits of significand, exponents from -1022, ties
to the even significand, and an infinity from `2 ^ 1024` on. -/
def redondearRacional (q : ℚ) : Numero :=
  if q = 0 then .finito 0
  else
    let m := |q|
    let e := max (exponente m) (-1022)
    let ulp := pot2 (e - 52)
    let r := (redondearPar (m / ulp) : ℚ) * ulp
    if pot2 1024 ≤ r then (if q < 0 then .menosInfinito else .infinito)
    else .finito (if q < 0 then -r else r)

/-- The value of the literal `1.21`: the double nearest to 121/100. -/
def valor121 : ℚ := 1362338887279575 / 1125899906842624

/-- The expression `x / 1.21`. -/
def Numero.entre121 : Numero → Numero
  | .NaN => .NaN
  | .finito q => redondearRacional (q / valor121)
  | .infinito => .infinito
  | .menosInfinito => .menosInfinito

/-- The expression `x - y`. -/
def Numero.menos : Numero → Numero → Numero
  | .NaN, _ => .NaN
  | _, .NaN => .NaN
  | .finito a, .finito b => redondearRacional (a - b)
  | .finito _, .infinito => .menosInfinito
  | .finito _, .menosInfinito => .infinito
  | .infinito, .infinito => .NaN
  | .infinito, _ => .infinito
  | .menosInfinito, .menosInfinito => .NaN
  | .menosInfinito, _ => .menosInfinito

/-- The expression `parseFloat(x.toFixed(2))`: below `10^21` in magnitude, the double of
the multiple of a cent nearest to `x`, the larger one in magnitude when two are equally
near; from `10^21` on, `x` itself. -/
def aDosDecimales : Numero → Numero
  | .NaN => .NaN
  | .finito q =>
    if 10 ^ 21 ≤ |q| then .finito q
    else if q < 0 then redondearRacional (-((⌊(-q) * 100 + 1 / 2⌋ : Int) : ℚ) / 100)
    else redondearRacional (((⌊q * 100 + 1 / 2⌋ : Int) : ℚ) / 100)
  | .infinito => .infinito
  | .menosInfinito => .menosInfinito

/-- The constant `neto` of both routes: `parseFloat((monto / 1.21).toFixed(2))`. -/
def netoDe (monto : Numero) : Numero := aDosDecimales monto.entre121

/-- The constant `iva` of both routes: `parseFloat((monto - neto).toFixed(2))`. -/
def ivaDe (monto : Numero) : Numero := aDosDecimales (monto.menos (netoDe monto))

/-- The specification's `round(x, 2)` in exact decimal arithmetic, for `x` not negative:
the nearest multiple of a cent. -/
def redondeoExacto (x : ℚ) : ℚ := ((⌊x * 100 + 1 / 2⌋ : Int) : ℚ) / 100

/-- The specification's net amount: `round(amount / 1.21, 2)` in exact arithmetic. -/
def netoExacto (monto : ℚ) : ℚ := redondeoExacto (monto / (121 / 100))

/-- The specification's tax: `round(amount - net, 2)` in exact arithmetic. -/
def ivaExacto (monto : ℚ) : ℚ := redondeoExacto (monto - netoExacto monto)

/-- An element of the array `Iva` built by the routes. -/
structure AlicuotaTicket where
  Id : Int
  BaseImp : Numero
  Importe : Numero
deriving DecidableEq, Repr

/-- The detail line built by the routes. -/
structure DetalleTicket where
  Concepto : Int
  DocTipo : NumeroEntero
  DocNro : NumeroEntero
  CbteFch : String
  ImpTotal : Numero
  ImpTotConc : Int
  ImpNeto : Numero
  ImpOpEx : Int
  ImpTrib : Int
  ImpIVA : Numero
  MonId : String
  MonCotiz : Int
  Iva : List AlicuotaTicket
deriving DecidableEq, Repr

/-- The header built by the routes. -/
structure CabeceraTicket where
  CbteTipo : NumeroEntero
  CantReg : Int
  PtoVta : NumeroEntero
deriving DecidableEq, Repr

/-- The object `datosFactura` built by the routes. -/
structure DatosTicket where
  FeCabReq : CabeceraTicket
  FeDetReq : List DetalleTicket
deriving DecidableEq, Repr

/-- The expression `parseInt(process.env.AFIP_PTO_VTA)`; a variable that is not set is
`undefined`. -/
def puntoDeVenta (AFIP_PTO_VTA : Option String) : NumeroEntero :=
  parseInt (AFIP_PTO_VTA.getD "undefined")

/-- The object `datosFactura` of the route `POST /afip/ticket`, from the validated data,
the date text `fecha` and the environment variable of the sales point. -/
def datosFacturaTicket (datosValidados : DatosValidados) (fecha : String)
    (AFIP_PTO_VTA : Option String) : DatosTicket :=
  let montoNum := datosValidados.montoNum
  let neto := netoDe montoNum
  let iva := ivaDe montoNum
  { FeCabReq := { CbteTipo := datosValidados.tipFacNum, CantReg := 1,
                  PtoVta := puntoDeVenta AFIP_PTO_VTA },
    FeDetReq := [{
      Concepto := 1, DocTipo := datosValidados.docTipoNum,
      DocNro := datosValidados.docNroNum, CbteFch := fecha, ImpTotal := montoNum,
      ImpTotConc := 0, ImpNeto := neto, ImpOpEx := 0, ImpTrib := 0, ImpIVA := iva,
      MonId := "PES", MonCotiz := 1,
      Iva := [{ Id := 5, BaseImp := neto, Importe := iva }] }] }

/-- The object `datosFactura` of the route `POST /afip/ticket-test`: amount 100, final
consumer, invoice type 6. -/
def datosFacturaTicketTest (fecha : String) (AFIP_PTO_VTA : Option String) : DatosTicket :=
  let monto : Numero := .finito 100
  let neto := netoDe monto
  let iva := ivaDe monto
  { FeCabReq := { CbteTipo := .entero 6, CantReg := 1, PtoVta := puntoDeVenta AFIP_PTO_VTA },
    FeDetReq := [{
      Concepto := 1, DocTipo := .entero 99, DocNro := .entero 0, CbteFch := fecha,
      ImpTotal := monto, ImpTotConc := 0, ImpNeto := neto, ImpOpEx := 0, ImpTrib := 0,
      ImpIVA := iva, MonId := "PES", MonCotiz := 1,
      Iva := [{ Id := 5, BaseImp := neto, Importe := iva }] }] }

/-! ## Facts about the cache and the log -/

theorem mapGet_mapSet_self (cache : TokenCache) (key : String) (v : EntradaCache) :
    mapGet (mapSet cache key v) key = some v := by
  induction cache with
  | nil => simp [mapSet, mapGet]
  | cons kv rest ih =>
    obtain ⟨k, w⟩ := kv
    by_cases h : k = key
    · simp [mapSet, mapGet, h]
    · simp [mapSet, mapGet, h, ih]

@[simp] theorem registrar_traza (env : Entorno) (st : Estado) (ll : Llamada) :
    (registrar env st ll).traza = st.traza ++ [ll] := rfl

@[simp] theorem registrar_tokenCache (env : Entorno) (st : Estado) (ll : Llamada) :
    (registrar env st ll).tokenCache = st.tokenCache := rfl

@[simp] theorem guardarEnCache_traza (st : Estado) (service : String) (c : Credenciales) :
    (guardarEnCache st service c).traza = st.traza := rfl

@[simp] theorem guardarEnCache_now (st : Estado) (service : String) (c : Credenciales) :
    (guardarEnCache st service c).now = st.now := rfl

theorem mapGet_guardarEnCache (st : Estado) (service : String) (c : Credenciales) :
    mapGet (guardarEnCache st service c).tokenCache service
      = some { credentials := c, timestamp := (guardarEnCache st service c).now } := by
  simp [guardarEnCache, mapGet_mapSet_self]

theorem solicitudesCAE_append (a b : List Llamada) :
    solicitudesCAE (a ++ b) = solicitudesCAE a ++ solicitudesCAE b := by
  induction a with
  | nil => rfl
  | cons x rest ih => cases x <;> simp [solicitudesCAE, ih]

theorem llamadasLogin_append (a b : List Llamada) :
    llamadasLogin (a ++ b) = llamadasLogin a + llamadasLogin b := by
  induction a with
  | nil => simp [llamadasLogin]
  | cons x rest ih =>
    have ih2 : llamadasLogin (rest.append b) = llamadasLogin rest + llamadasLogin b := ih
    cases x <;> simp only [llamadasLogin, List.cons_append, ih, ih2]
    all_goals omega

/-! ## Facts about authentication -/

theorem extraerDelError_traza (st : Estado) (service : String) (error : Falla) :
    (extraerDelError st service error).2.traza = st.traza := by
  unfold extraerDelError
  split
  · split <;> rfl
  · rfl

theorem extraerDelError_ok (st : Estado) (service : String) (error : Falla)
    (c : Credenciales) (st1 : Estado)
    (h : extraerDelError st service error = (.ok c, st1)) :
    st1 = guardarEnCache st service c := by
  unfold extraerDelError at h
  split at h
  · split at h
    · simp only [Prod.mk.injEq, Except.ok.injEq] at h
      obtain ⟨h1, h2⟩ := h
      subst h1
      exact h2.symm
    · simp at h
  · simp at h

theorem solicitarLogin_traza (env : Entorno) (st : Estado) (service cms : String) :
    (solicitarLogin env st service cms).2.traza = st.traza ++ [.loginCms cms] := by
  unfold solicitarLogin
  dsimp only
  split
  · rfl
  · rfl
  · rfl
  · split <;> rfl

theorem solicitarLogin_ok (env : Entorno) (st : Estado) (service cms : String)
    (c : Credenciales) (st1 : Estado)
    (h : solicitarLogin env st service cms = (.ok c, st1)) :
    st1 = guardarEnCache (registrar env st (.loginCms cms)) service c := by
  unfold solicitarLogin at h
  split at h
  · simp at h
  · simp at h
  · simp at h
  · split at h
    · simp at h
    · simp only [Prod.mk.injEq, Except.ok.injEq] at h
      obtain ⟨h1, h2⟩ := h
      subst h1
      exact h2.symm

/-- Whatever happens, the login path signs a ticket, and it adds to the log at most a
client creation and one login call after it. -/
theorem loginWsaa_traza (env : Entorno) (st : Estado) (service : String) :
    (loginWsaa env st service).2.traza = st.traza ++ [.crearCMS service] ∨
    (loginWsaa env st service).2.traza
      = st.traza ++ [.crearCMS service, .createClient .WSAA_WSDL] ∨
    ∃ cms, (loginWsaa env st service).2.traza
      = st.traza ++ [.crearCMS service, .createClient .WSAA_WSDL, .loginCms cms] := by
  unfold loginWsaa
  dsimp only
  split
  · exact Or.inl rfl
  · split
    · exact Or.inr (Or.inl (by simp))
    · rename_i cms hcms _ hcl
      refine Or.inr (Or.inr ⟨cms, ?_⟩)
      have ht := solicitarLogin_traza env (registrar env (registrar env st (.crearCMS service))
          (.createClient .WSAA_WSDL)) service cms
      split
      · rename_i c st3 h
        rw [h] at ht
        simpa using ht
      · rename_i e st3 h
        rw [h] at ht
        rw [extraerDelError_traza]
        simpa using ht

/-- A successful login path made exactly one login call and left the returned credential
in the cache, stamped with the time of return. -/
theorem loginWsaa_ok (env : Entorno) (st : Estado) (service : String)
    (c : Credenciales) (st1 : Estado) (h : loginWsaa env st service = (.ok c, st1)) :
    (∃ cms, st1.traza = st.traza ++ [.crearCMS service, .createClient .WSAA_WSDL, .loginCms cms]) ∧
    mapGet st1.tokenCache service = some { credentials := c, timestamp := st1.now } := by
  unfold loginWsaa at h
  dsimp only at h
  split at h
  · simp at h
  · split at h
    · simp at h
    · rename_i cms hcms _ hcl
      have ht := solicitarLogin_traza env (registrar env (registrar env st (.crearCMS service))
          (.createClient .WSAA_WSDL)) service cms
      split at h
      · rename_i c3 st3 h3
        simp only [Prod.mk.injEq, Except.ok.injEq] at h
        obtain ⟨hc, hs⟩ := h
        subst hc hs
        have hst := solicitarLogin_ok _ _ _ _ _ _ h3
        refine ⟨⟨cms, ?_⟩, ?_⟩
        · rw [h3] at ht
          simpa using ht
        · rw [hst]
          exact mapGet_guardarEnCache _ _ _
      · rename_i e3 st3 h3
        have hst := extraerDelError_ok _ _ _ _ _ h
        refine ⟨⟨cms, ?_⟩, ?_⟩
        · rw [h3] at ht
          rw [hst]
          simpa using ht
        · rw [hst]
          exact mapGet_guardarEnCache _ _ _

theorem obtenerTokenSign_hit (env : Entorno) (st : Estado) (service : String)
    (c : Credenciales) (h : tokenEnCache st service = some c) :
    obtenerTokenSign env st service = (.ok c, st) := by
  simp [obtenerTokenSign, h]

theorem obtenerTokenSign_miss_ok (env : Entorno) (st : Estado) (service : String)
    (c : Credenciales) (st1 : Estado) (hmiss : tokenEnCache st service = none)
    (h : obtenerTokenSign env st service = (.ok c, st1)) :
    loginWsaa env st service = (.ok c, st1) := by
  simp only [obtenerTokenSign, hmiss] at h
  split at h
  · rename_i c2 st2 h2
    rw [h2, ← h]
  · simp at h

/-! ## The credential cache (C1, C2) -/

/-- C1: a cached credential whose age `now - timestamp` is 11 minutes (660000 ms) or more
is never returned by `obtenerTokenSign`: the lookup treats the entry as absent, a fresh
login is started (a ticket is signed), and a credential that is returned comes from a
login call made by this very invocation and sits in the cache with age zero. -/
theorem obtenerTokenSign_never_returns_stale (env : Entorno) (st : Estado) (service : String)
    (entry : EntradaCache)
    (hget : mapGet st.tokenCache service = some entry)
    (hage : 660000 ≤ st.now - entry.timestamp) :
    tokenEnCache st service = none ∧
    (∃ rest, (obtenerTokenSign env st service).2.traza
        = st.traza ++ Llamada.crearCMS service :: rest) ∧
    (∀ c st1, obtenerTokenSign env st service = (.ok c, st1) →
        (∃ cms, st1.traza
          = st.traza ++ [.crearCMS service, .createClient .WSAA_WSDL, .loginCms cms]) ∧
        mapGet st1.tokenCache service = some { credentials := c, timestamp := st1.now }) := by
  have hmiss : tokenEnCache st service = none := by
    have : ¬ st.now - entry.timestamp < TOKEN_CACHE_DURATION := by
      unfold TOKEN_CACHE_DURATION
      omega
    simp [tokenEnCache, hget, this]
  refine ⟨hmiss, ?_, ?_⟩
  · have htr := loginWsaa_traza env st service
    have hsame : (obtenerTokenSign env st service).2.traza
        = (loginWsaa env st service).2.traza := by
      simp only [obtenerTokenSign, hmiss]
      split <;> rename_i h <;> rw [h]
    rw [hsame]
    rcases htr with h | h | ⟨cms, h⟩
    · exact ⟨[], h⟩
    · exact ⟨[.createClient .WSAA_WSDL], h⟩
    · exact ⟨[.createClient .WSAA_WSDL, .loginCms cms], h⟩
  · intro c st1 h
    exact loginWsaa_ok env st service c st1 (obtenerTokenSign_miss_ok env st service c st1 hmiss h)

theorem obtenerTokenSign_never_returns_stale_witness :
    mapGet estadoVencido.tokenCache "wsfe"
      = some { credentials := { token := some "T0", sign := some "S0" }, timestamp := 340000 } ∧
    (660000 : Int) ≤ estadoVencido.now - 340000 ∧
    tokenEnCache estadoVencido "wsfe" = none ∧
    (obtenerTokenSign entornoFeliz estadoVencido "wsfe").1
      = .ok { token := some "T", sign := some "S" } :=
  ⟨rfl, by decide,
    (obtenerTokenSign_never_returns_stale entornoFeliz estadoVencido "wsfe"
      { credentials := { token := some "T0", sign := some "S0" }, timestamp := 340000 }
      rfl (by decide)).1, rfl⟩

/-- C2: after `obtenerTokenSign` succeeded through a remote login that finished at time
`t0 = st1.now`, a second call for the same service at a time less than 11 minutes later,
on any state whose cache still holds the entry of that service, returns the same
credential, makes no call at all and leaves the whole state (cache and log) unchanged. -/
theorem obtenerTokenSign_second_call_hits_cache (env env2 : Entorno) (st st1 st2 : Estado)
    (service : String) (c : Credenciales)
    (hmiss : tokenEnCache st service = none)
    (hfirst : obtenerTokenSign env st service = (.ok c, st1))
    (hkept : mapGet st2.tokenCache service = mapGet st1.tokenCache service)
    (hsoon : st2.now - st1.now < 660000) :
    obtenerTokenSign env2 st2 service = (.ok c, st2) := by
  have hentry := (loginWsaa_ok env st service c st1
    (obtenerTokenSign_miss_ok env st service c st1 hmiss hfirst)).2
  apply obtenerTokenSign_hit
  have : st2.now - st1.now < TOKEN_CACHE_DURATION := by
    unfold TOKEN_CACHE_DURATION
    omega
  simp [tokenEnCache, hkept, hentry, this]

theorem obtenerTokenSign_second_call_hits_cache_witness :
    obtenerTokenSign entornoFeliz
        { (obtenerTokenSign entornoFeliz estadoInicial "wsfe").2 with now := 1660299 } "wsfe"
      = (.ok { token := some "T", sign := some "S" },
          { (obtenerTokenSign entornoFeliz estadoInicial "wsfe").2 with now := 1660299 }) :=
  obtenerTokenSign_second_call_hits_cache entornoFeliz entornoFeliz estadoInicial
    (obtenerTokenSign entornoFeliz estadoInicial "wsfe").2
    { (obtenerTokenSign entornoFeliz estadoInicial "wsfe").2 with now := 1660299 }
    "wsfe" { token := some "T", sign := some "S" } rfl rfl rfl (by decide)

/-! ## Already-authenticated faults of the login call (C3, C4) -/

/-- C3: with no valid cached credential, when the login call is rejected with a message
that contains `alreadyAuthenticated` and a fault detail `{token, sign}`, `obtenerTokenSign`
returns exactly that pair, stores it in the cache for the service, and the log shows one
login call and no second one. -/
theorem obtenerTokenSign_recovers_from_fault_detail (env : Entorno) (st : Estado)
    (service cms : String) (e : ErrorRemoto) (d : DetalleFault)
    (hmiss : tokenEnCache st service = none)
    (hcms : env.crearCMS st.traza.length service = some cms)
    (hclient : env.createClient (st.traza.length + 1) .WSAA_WSDL = .ok ())
    (hlogin : env.loginCms (st.traza.length + 2) cms = .rechazo e)
    (haa : includes e.message "alreadyAuthenticated" = true)
    (hdet : e.detail = some d) :
    ∃ st1, obtenerTokenSign env st service = (.ok { token := d.token, sign := d.sign }, st1) ∧
      mapGet st1.tokenCache service
        = some { credentials := { token := d.token, sign := d.sign }, timestamp := st1.now } ∧
      st1.traza = st.traza ++ [.crearCMS service, .createClient .WSAA_WSDL, .loginCms cms] ∧
      llamadasLogin st1.traza = llamadasLogin st.traza + 1 := by
  refine ⟨guardarEnCache (registrar env (registrar env (registrar env st (.crearCMS service))
      (.createClient .WSAA_WSDL)) (.loginCms cms)) service { token := d.token, sign := d.sign },
    ?_, mapGet_guardarEnCache _ _ _, by simp, by simp [llamadasLogin_append, llamadasLogin]⟩
  simp [obtenerTokenSign, hmiss, loginWsaa, hcms, hclient, solicitarLogin, hlogin,
    extraerDelError, esAlreadyAuthenticated, Falla.message, Falla.detail, haa, hdet]

theorem obtenerTokenSign_recovers_from_fault_detail_witness :
    ∃ st1, obtenerTokenSign
        (entornoYaAutenticado (some { token := some "T", sign := some "S" })) estadoVencido "wsfe"
        = (.ok { token := some "T", sign := some "S" }, st1) ∧
      mapGet st1.tokenCache "wsfe"
        = some { credentials := { token := some "T", sign := some "S" }, timestamp := st1.now } ∧
      st1.traza = estadoVencido.traza
        ++ [.crearCMS "wsfe", .createClient .WSAA_WSDL, .loginCms "cms"] ∧
      llamadasLogin st1.traza = llamadasLogin estadoVencido.traza + 1 :=
  obtenerTokenSign_recovers_from_fault_detail
    (entornoYaAutenticado (some { token := some "T", sign := some "S" })) estadoVencido
    "wsfe" "cms" { message := mensajeYaAutenticado,
                   detail := some { token := some "T", sign := some "S" } }
    { token := some "T", sign := some "S" } rfl rfl rfl rfl (by decide) rfl

/-- C4: evaluation at the failing inputs.  The login call is rejected as already
authenticated.  Without a fault detail `obtenerTokenSign` makes its single login call,
leaves the cache of every service as it was and throws the generic authentication error;
`getLastVoucher` on top of it does not retry either, because the generic message no longer
contains `alreadyAuthenticated`.  With a fault detail that carries neither token nor
signature it caches and returns the credential `{token: undefined, sign: undefined}`. -/
theorem obtenerTokenSign_alreadyAuthenticated_without_credentials :
    obtenerTokenSign (entornoYaAutenticado none) estadoVencido "wsfe"
      = (.error .autenticacion,
          { tokenCache := estadoVencido.tokenCache, now := 1000300,
            traza := [.crearCMS "wsfe", .createClient .WSAA_WSDL, .loginCms "cms"] }) ∧
    getLastVoucher (entornoYaAutenticado none) estadoVencido (.number 1) 6
      = (.error .autenticacion,
          { tokenCache := estadoVencido.tokenCache, now := 1000300,
            traza := [.crearCMS "wsfe", .createClient .WSAA_WSDL, .loginCms "cms"] }) ∧
    obtenerTokenSign (entornoYaAutenticado (some { token := none, sign := none }))
        estadoInicial "wsfe"
      = (.ok { token := none, sign := none },
          { tokenCache :=
              [("wsfe", { credentials := { token := none, sign := none },
                          timestamp := 1000300 })],
            now := 1000300,
            traza := [.crearCMS "wsfe", .createClient .WSAA_WSDL, .loginCms "cms"] }) :=
  ⟨rfl, rfl, rfl⟩

/-! ## Facts about the calls before the authorization -/

theorem sumaNumeros_exacta (n : Int) (h : (n + 1).natAbs < 2 ^ 53) : sumaNumeros n 1 = n + 1 := by
  unfold sumaNumeros redondearDoble
  simp only [h, if_true]
  split <;> omega

theorem obtenerTokenSign_solicitudes (env : Entorno) (st st1 : Estado) (service : String)
    (r : Except Falla Credenciales) (h : obtenerTokenSign env st service = (r, st1)) :
    solicitudesCAE st1.traza = solicitudesCAE st.traza := by
  have hst : st1.traza = (obtenerTokenSign env st service).2.traza := by rw [h]
  rw [hst]
  unfold obtenerTokenSign
  split
  · rfl
  · have htr := loginWsaa_traza env st service
    have hsame : ∀ p : Except Falla Credenciales × Estado,
        (match p with
          | (.ok credentials, s1) => ((.ok credentials, s1) : Except Falla Credenciales × Estado)
          | (.error _, s1) => (.error .autenticacion, s1)).2.traza = p.2.traza := by
      intro p
      split <;> rfl
    rw [hsame]
    rcases htr with h1 | h1 | ⟨cms, h1⟩ <;> rw [h1] <;>
      simp [solicitudesCAE_append, solicitudesCAE]

theorem manejarErrorAutenticacion_solicitudes (env : Entorno) (st st1 : Estado) (error : Falla)
    (service : String) (r : Except Falla Credenciales)
    (h : manejarErrorAutenticacion env st error service = (r, st1)) :
    solicitudesCAE st1.traza = solicitudesCAE st.traza := by
  unfold manejarErrorAutenticacion at h
  split at h
  · exact obtenerTokenSign_solicitudes env (limpiarCacheTokens st) st1 service r h
  · simp only [Prod.mk.injEq] at h
    rw [← h.2]

theorem consultarUltimo_solicitudes (env : Entorno) (st st1 : Estado) (salesPoint : Valor)
    (type : Int) (r : Except Falla UltimoComprobante)
    (h : consultarUltimo env st salesPoint type = (r, st1)) :
    solicitudesCAE st1.traza = solicitudesCAE st.traza := by
  unfold consultarUltimo at h
  dsimp only at h
  split at h
  · rename_i e s1 h1
    have := obtenerTokenSign_solicitudes env st s1 "wsfe" _ h1
    simp only [Prod.mk.injEq] at h
    rw [← h.2, this]
  · rename_i c s1 h1
    have h0 := obtenerTokenSign_solicitudes env st s1 "wsfe" _ h1
    repeat' split at h
    all_goals
      simp only [Prod.mk.injEq] at h
      rw [← h.2]
      simp [solicitudesCAE_append, solicitudesCAE, h0]

theorem getLastVoucher_solicitudes (env : Entorno) (st st1 : Estado) (salesPoint : Valor)
    (type : Int) (r : Except Falla UltimoComprobante)
    (h : getLastVoucher env st salesPoint type = (r, st1)) :
    solicitudesCAE st1.traza = solicitudesCAE st.traza := by
  unfold getLastVoucher at h
  split at h
  · rename_i v s1 h1
    have := consultarUltimo_solicitudes env st s1 salesPoint type _ h1
    simp only [Prod.mk.injEq] at h
    rw [← h.2, this]
  · rename_i e s1 h1
    have h0 := consultarUltimo_solicitudes env st s1 salesPoint type _ h1
    split at h
    · split at h
      · rename_i c s2 h2
        have := manejarErrorAutenticacion_solicitudes env s1 s2 e "wsfe" _ h2
        simp only [Prod.mk.injEq] at h
        rw [← h.2, this, h0]
      · rename_i e2 s2 h2
        have := manejarErrorAutenticacion_solicitudes env s1 s2 e "wsfe" _ h2
        simp only [Prod.mk.injEq] at h
        rw [← h.2, this, h0]
    · simp only [Prod.mk.injEq] at h
      rw [← h.2, h0]

theorem pedirCondiciones_solicitudes (env : Entorno) (st st1 : Estado)
    (claseComprobante : Option String) (r : Except Falla (List CondicionIva))
    (h : pedirCondiciones env st claseComprobante = (r, st1)) :
    solicitudesCAE st1.traza = solicitudesCAE st.traza := by
  unfold pedirCondiciones at h
  dsimp only at h
  split at h
  · rename_i e s1 h1
    have := obtenerTokenSign_solicitudes env st s1 "wsfe" _ h1
    simp only [Prod.mk.injEq] at h
    rw [← h.2, this]
  · rename_i c s1 h1
    have h0 := obtenerTokenSign_solicitudes env st s1 "wsfe" _ h1
    repeat' split at h
    all_goals
      simp only [Prod.mk.injEq] at h
      rw [← h.2]
      simp [solicitudesCAE_append, solicitudesCAE, h0]

theorem consultarCondicionIvaReceptor_solicitudes (env : Entorno) (st st1 : Estado)
    (claseComprobante : Option String) (r : Except Falla RetornoCondiciones)
    (h : consultarCondicionIvaReceptor env st claseComprobante = (r, st1)) :
    solicitudesCAE st1.traza = solicitudesCAE st.traza := by
  unfold consultarCondicionIvaReceptor at h
  split at h
  · rename_i v s1 h1
    have := pedirCondiciones_solicitudes env st s1 claseComprobante _ h1
    simp only [Prod.mk.injEq] at h
    rw [← h.2, this]
  · rename_i e s1 h1
    have h0 := pedirCondiciones_solicitudes env st s1 claseComprobante _ h1
    split at h
    · split at h
      · rename_i c s2 h2
        have := manejarErrorAutenticacion_solicitudes env s1 s2 e "wsfe" _ h2
        simp only [Prod.mk.injEq] at h
        rw [← h.2, this, h0]
      · rename_i e2 s2 h2
        have := manejarErrorAutenticacion_solicitudes env s1 s2 e "wsfe" _ h2
        simp only [Prod.mk.injEq] at h
        rw [← h.2, this, h0]
    · simp only [Prod.mk.injEq] at h
      rw [← h.2, h0]

/-! ## The next voucher number (C5) -/

theorem getLastVoucher_remote_number (env : Entorno) (st st0 : Estado) (salesPoint : Valor)
    (type n : Int) (cred : Credenciales)
    (hauth : obtenerTokenSign env st "wsfe" = (.ok cred, st0))
    (hclient : env.createClient st0.traza.length .WSDL_WSFE = .ok ())
    (hremote : env.FECompUltimoAutorizado (st0.traza.length + 1)
        { auth := { Token := cred.token, Sign := cred.sign, Cuit := env.AFIP_CUIT },
          PtoVta := salesPoint, CbteTipo := type } = .ok (some { CbteNro := some n })) :
    getLastVoucher env st salesPoint type
      = (.ok (.number n),
          registrar env (registrar env st0 (.createClient .WSDL_WSFE))
            (.FECompUltimoAutorizado
              { auth := { Token := cred.token, Sign := cred.sign, Cuit := env.AFIP_CUIT },
                PtoVta := salesPoint, CbteTipo := type })) := by
  simp [getLastVoucher, consultarUltimo, hauth, hclient, hremote]

/-- C5: when authentication succeeds, the remote last authorized number is `n` (with
`n + 1` a safe integer of the language), the request has a first line, and `generarFactura`
(eligibility check and authorization) succeeds with a response whose detail list is not
empty, `createNextVoucher` returns exactly `CAE` and `CAEFchVto` of the first detail
element together with `voucherNumber = n + 1`. -/
theorem createNextVoucher_returns_next_number (env : Entorno) (st st0 st2 : Estado)
    (data data1 : DatosFactura) (cred : Credenciales) (n : Int) (factura : RespuestaCAE)
    (primero : FECAEDetResponse) (resto : List FECAEDetResponse)
    (hauth : obtenerTokenSign env st "wsfe" = (.ok cred, st0))
    (hclient : env.createClient st0.traza.length .WSDL_WSFE = .ok ())
    (hremote : env.FECompUltimoAutorizado (st0.traza.length + 1)
        { auth := { Token := cred.token, Sign := cred.sign, Cuit := env.AFIP_CUIT },
          PtoVta := data.FeCabReq.PtoVta, CbteTipo := data.FeCabReq.CbteTipo }
        = .ok (some { CbteNro := some n }))
    (hsafe : (n + 1).natAbs < 2 ^ 53)
    (hline : asignarNumero data (.number (n + 1)) = some data1)
    (hfac : generarFactura env
        (registrar env (registrar env st0 (.createClient .WSDL_WSFE))
          (.FECompUltimoAutorizado
            { auth := { Token := cred.token, Sign := cred.sign, Cuit := env.AFIP_CUIT },
              PtoVta := data.FeCabReq.PtoVta, CbteTipo := data.FeCabReq.CbteTipo }))
        env.AFIP_CUIT data1 = (.ok (some factura), st2))
    (hdet : factura.FECAEDetResponse = some (primero :: resto)) :
    createNextVoucher env st data
      = (.ok (.autorizacion primero.CAE primero.CAEFchVto (.number (n + 1))), st2) := by
  have hl := getLastVoucher_remote_number env st st0 data.FeCabReq.PtoVta
    data.FeCabReq.CbteTipo n cred hauth hclient hremote
  simp [createNextVoucher, emitirSiguiente, hl, masUno, sumaNumeros_exacta n hsafe, hline,
    hfac, hdet]

theorem createNextVoucher_returns_next_number_witness :
    (createNextVoucher (entornoUltimo (some 0)) estadoInicial facturaPrueba).1
      = .ok (.autorizacion (some "12345678901234") (some "20261116") (.number 1)) ∧
    (createNextVoucher (entornoUltimo (some 1)) estadoInicial facturaPrueba).1
      = .ok (.autorizacion (some "12345678901234") (some "20261116") (.number 2)) ∧
    (createNextVoucher (entornoUltimo (some 999999)) estadoInicial facturaPrueba).1
      = .ok (.autorizacion (some "12345678901234") (some "20261116") (.number 1000000)) :=
  ⟨congrArg Prod.fst (createNextVoucher_returns_next_number (entornoUltimo (some 0))
      estadoInicial (obtenerTokenSign (entornoUltimo (some 0)) estadoInicial "wsfe").2
      (createNextVoucher (entornoUltimo (some 0)) estadoInicial facturaPrueba).2
      facturaPrueba { facturaPrueba with FeDetReq :=
        [{ detPrueba with CbteDesde := .number 1, CbteHasta := .number 1 }] }
      { token := some "T", sign := some "S" } 0 respuestaFeliz
      { CAE := some "12345678901234", CAEFchVto := some "20261116" } []
      rfl rfl rfl (by decide) rfl rfl rfl),
   congrArg Prod.fst (createNextVoucher_returns_next_number (entornoUltimo (some 1))
      estadoInicial (obtenerTokenSign (entornoUltimo (some 1)) estadoInicial "wsfe").2
      (createNextVoucher (entornoUltimo (some 1)) estadoInicial facturaPrueba).2
      facturaPrueba { facturaPrueba with FeDetReq :=
        [{ detPrueba with CbteDesde := .number 2, CbteHasta := .number 2 }] }
      { token := some "T", sign := some "S" } 1 respuestaFeliz
      { CAE := some "12345678901234", CAEFchVto := some "20261116" } []
      rfl rfl rfl (by decide) rfl rfl rfl),
   congrArg Prod.fst (createNextVoucher_returns_next_number (entornoUltimo (some 999999))
      estadoInicial (obtenerTokenSign (entornoUltimo (some 999999)) estadoInicial "wsfe").2
      (createNextVoucher (entornoUltimo (some 999999)) estadoInicial facturaPrueba).2
      facturaPrueba { facturaPrueba with FeDetReq :=
        [{ detPrueba with CbteDesde := .number 1000000, CbteHasta := .number 1000000 }] }
      { token := some "T", sign := some "S" } 999999 respuestaFeliz
      { CAE := some "12345678901234", CAEFchVto := some "20261116" } []
      rfl rfl rfl (by decide) rfl rfl rfl)⟩

/-! ## The message of the malformed-request error -/

theorem incluyeLista_skip (c0 : Char) (resto xs ys : List Char) (h : ∀ x ∈ xs, x ≠ c0) :
    incluyeLista (c0 :: resto) (xs ++ ys) = incluyeLista (c0 :: resto) ys := by
  induction xs with
  | nil => rfl
  | cons x xs ih =>
    have hx : (c0 == x) = false := by
      have := h x (List.mem_cons_self _ _)
      simpa [beq_eq_false_iff_ne] using fun h' : c0 = x => this h'.symm
    have ih2 := ih (fun y hy => h y (List.mem_cons_of_mem _ hy))
    simp [incluyeLista, empiezaCon, hx, ih2]

theorem incluyeLista_cons_ne (c0 x : Char) (resto zs : List Char) (h : (c0 == x) = false) :
    incluyeLista (c0 :: resto) (x :: zs) = incluyeLista (c0 :: resto) zs := by
  simp [incluyeLista, empiezaCon, h]

theorem incluyeLista_cons_ne2 (c0 c1 y : Char) (resto zs : List Char)
    (h : (c1 == y) = false) :
    incluyeLista (c0 :: c1 :: resto) (c0 :: y :: zs)
      = incluyeLista (c0 :: c1 :: resto) (y :: zs) := by
  simp [incluyeLista, empiezaCon, h]

theorem digitosRev_no_a (fuel m : Nat) : ∀ c ∈ digitosRev fuel m, c ≠ 'a' := by
  induction fuel generalizing m with
  | zero => simp [digitosRev]
  | succ k ih =>
    intro c hc
    simp only [digitosRev, List.mem_cons] at hc
    rcases hc with hc | hc
    · subst hc
      have hk : m % 10 < 10 := Nat.mod_lt _ (by decide)
      generalize m % 10 = d at hk
      interval_cases d <;> decide
    · split at hc
      · simp at hc
      · exact ih _ c hc

theorem renderInt_no_a (n : Int) : ∀ c ∈ (renderInt n).toList, c ≠ 'a' := by
  intro c hc
  unfold renderInt at hc
  simp only [String.toList] at hc
  split at hc
  · simp only [List.mem_cons, List.mem_reverse] at hc
    rcases hc with hc | hc
    · subst hc; decide
    · exact digitosRev_no_a _ _ c hc
  · simp only [List.mem_reverse] at hc
    exact digitosRev_no_a _ _ c hc

/-- The message of the malformed-request error never contains `alreadyAuthenticated`,
whatever `CantReg` is, so the `catch` of `createNextVoucher` rethrows it. -/
theorem feDetReqInvalido_no_alreadyAuthenticated (cantReg : Int) :
    esAlreadyAuthenticated (.feDetReqInvalido cantReg) = false := by
  unfold esAlreadyAuthenticated Falla.message includes
  have hsplit : ("FeDetReq debe ser un array con exactamente " ++ renderInt cantReg
      ++ " elementos.").toList
      = "FeDetReq debe ser un array con exactamente ".toList
        ++ ((renderInt cantReg).toList ++ " elementos.".toList) := by
    simp [String.toList, String.data_append]
  have hneedle : "alreadyAuthenticated".toList = 'a' :: 'l' :: "readyAuthenticated".toList :=
    rfl
  have hpre : "FeDetReq debe ser un array con exactamente ".toList
      = ['F', 'e', 'D', 'e', 't', 'R', 'e', 'q', ' ', 'd', 'e', 'b', 'e', ' ', 's', 'e', 'r',
         ' ', 'u', 'n', ' ', 'a', 'r', 'r', 'a', 'y', ' ', 'c', 'o', 'n', ' ', 'e', 'x', 'a',
         'c', 't', 'a', 'm', 'e', 'n', 't', 'e', ' '] := by decide
  rw [hsplit, hneedle, hpre]
  simp only [List.cons_append, List.nil_append]
  repeat (first
    | rw [incluyeLista_cons_ne _ _ _ _ (by decide)]
    | rw [incluyeLista_cons_ne2 _ _ _ _ _ (by decide)])
  rw [incluyeLista_skip _ _ _ _ (renderInt_no_a cantReg)]
  rfl

theorem asignarNumero_some (data data1 : DatosFactura) (v : Valor)
    (h : asignarNumero data v = some data1) :
    data1.FeCabReq = data.FeCabReq ∧ data1.FeDetReq.length = data.FeDetReq.length := by
  unfold asignarNumero at h
  split at h
  · simp at h
  · rename_i det resto hd
    simp only [Option.some.injEq] at h
    subst h
    simp [hd]

/-! ## The check of the detail list against the header (C6) -/

/-- C6, as stated, fails: with two detail lines under a header that announces one,
`createNextVoucher` does fail with the malformed-request error, but only after the login,
the last-voucher call and the tax-condition call have been made (three remote calls, not
zero). -/
theorem createNextVoucher_malformed_after_remote_calls :
    (createNextVoucher entornoFeliz estadoInicial facturaDosLineas).1
      = .error (.feDetReqInvalido 1) ∧
    llamadasRemotas (createNextVoucher entornoFeliz estadoInicial facturaDosLineas).2.traza = 3 ∧
    (createNextVoucher entornoFeliz estadoInicial facturaDosLineas).2.traza ≠ [] :=
  ⟨rfl, rfl, by decide⟩

/-- C6, amended: for a request with at least one detail line whose number of lines
differs from `CantReg`, once the last-voucher query, the tax-condition query with its
eligibility and expiry checks, the authentication and the client creation have succeeded,
`createNextVoucher` fails with the malformed-request error, and the authorization endpoint
is not invoked. -/
theorem createNextVoucher_malformed_before_authorization (env : Entorno)
    (st st1 st2 st3 : Estado) (data data1 : DatosFactura) (last : UltimoComprobante)
    (conds : List CondicionIva) (c : CondicionIva) (cred : Credenciales)
    (hlen : (data.FeDetReq.length : Int) ≠ data.FeCabReq.CantReg)
    (hlast : getLastVoucher env st data.FeCabReq.PtoVta data.FeCabReq.CbteTipo
      = (.ok last, st1))
    (hline : asignarNumero data (masUno last) = some data1)
    (hcond : consultarCondicionIvaReceptor env st1 (some (claseDe data))
      = (.ok (.condiciones conds), st2))
    (hsel : conds.find? (esDeClase (claseDe data)) = some c)
    (hvig : haExpirado env st2.now c = false)
    (hauth : obtenerTokenSign env st2 "wsfe" = (.ok cred, st3))
    (hclient : env.createClient st3.traza.length .WSDL_WSFE = .ok ()) :
    createNextVoucher env st data
      = (.error (.feDetReqInvalido data.FeCabReq.CantReg),
          registrar env st3 (.createClient .WSDL_WSFE)) ∧
    solicitudesCAE (registrar env st3 (.createClient .WSDL_WSFE)).traza
      = solicitudesCAE st.traza := by
  obtain ⟨hcab, hl1⟩ := asignarNumero_some data data1 _ hline
  have hclase : claseDe data1 = claseDe data := by simp [claseDe, hcab]
  have hany : conds.any (esDeClase (claseDe data)) = true := by
    rw [List.any_eq_true]
    exact ⟨c, List.mem_of_find?_eq_some hsel, List.find?_some hsel⟩
  have hlen1 : (data1.FeDetReq.length : Int) ≠ data.FeCabReq.CantReg := by
    rw [hl1]; exact hlen
  constructor
  · simp [createNextVoucher, emitirSiguiente, hlast, hline, generarFactura, hclase, hcond,
      hany, hsel, hvig, solicitarCAE, hauth, hclient, hlen1, hcab,
      feDetReqInvalido_no_alreadyAuthenticated]
  · have h1 := getLastVoucher_solicitudes env st st1 _ _ _ hlast
    have h2 := consultarCondicionIvaReceptor_solicitudes env st1 st2 _ _ hcond
    have h3 := obtenerTokenSign_solicitudes env st2 st3 _ _ hauth
    simp [solicitudesCAE_append, solicitudesCAE, h1, h2, h3]

theorem createNextVoucher_malformed_before_authorization_witness :
    (createNextVoucher entornoFeliz estadoInicial facturaDosLineas).1
      = .error (.feDetReqInvalido facturaDosLineas.FeCabReq.CantReg) :=
  congrArg Prod.fst (createNextVoucher_malformed_before_authorization entornoFeliz
    estadoInicial
    (getLastVoucher entornoFeliz estadoInicial (.number 1) 6).2
    (consultarCondicionIvaReceptor entornoFeliz
      (getLastVoucher entornoFeliz estadoInicial (.number 1) 6).2 (some "B")).2
    (consultarCondicionIvaReceptor entornoFeliz
      (getLastVoucher entornoFeliz estadoInicial (.number 1) 6).2 (some "B")).2
    facturaDosLineas
    { facturaDosLineas with FeDetReq :=
        [{ detPrueba with CbteDesde := .number 1000000, CbteHasta := .number 1000000 },
         detPrueba] }
    (.number 999999) [condicionB] condicionB { token := some "T", sign := some "S" }
    (by decide) rfl rfl rfl rfl rfl rfl rfl).1

/-! ## Receiver eligibility (C7, C8) -/

theorem map_condiciones (l : List CondicionIva) :
    l.map (fun condicion : CondicionIva =>
      ({ Id := condicion.Id, Desc := condicion.Desc, Cmp_Clase := condicion.Cmp_Clase,
         FechaDesde := condicion.FechaDesde, FechaHasta := condicion.FechaHasta } :
        CondicionIva)) = l := by
  induction l with
  | nil => rfl
  | cons x xs ih => simp [ih]

theorem consultarCondicionIvaReceptor_remote (env : Entorno) (st st0 : Estado)
    (clase : String) (cred : Credenciales) (conds : List CondicionIva)
    (hclase : clase ≠ "")
    (hauth : obtenerTokenSign env st "wsfe" = (.ok cred, st0))
    (hclient : env.createClient st0.traza.length .WSDL_WSFE = .ok ())
    (hremote : env.FEParamGetCondicionIvaReceptor (st0.traza.length + 1)
        { auth := { Token := cred.token, Sign := cred.sign, Cuit := env.AFIP_CUIT },
          ClaseCmp := some clase }
        = .ok (some { Err := [], CondicionIvaReceptor := conds }))
    (hne : conds ≠ []) :
    consultarCondicionIvaReceptor env st (some clase)
      = (.ok (.condiciones conds),
          registrar env (registrar env st0 (.createClient .WSDL_WSFE))
            (.FEParamGetCondicionIvaReceptor
              { auth := { Token := cred.token, Sign := cred.sign, Cuit := env.AFIP_CUIT },
                ClaseCmp := some clase })) := by
  simp [consultarCondicionIvaReceptor, pedirCondiciones, hauth, hclient, truthy, hclase,
    hremote, hne, map_condiciones]

/-- C7: for an invoice of class A (`CbteTipo` 1), when the tax-condition query succeeds
with a non-empty list that holds only class-B entries, `generarFactura` fails with the
ineligible-receiver error, and the authorization endpoint is not invoked. -/
theorem generarFactura_class_A_needs_class_A_condition (env : Entorno) (st st0 : Estado)
    (cuitEmisor : Option String) (datosFactura : DatosFactura) (cred : Credenciales)
    (conds : List CondicionIva)
    (hA : datosFactura.FeCabReq.CbteTipo = 1)
    (hauth : obtenerTokenSign env st "wsfe" = (.ok cred, st0))
    (hclient : env.createClient st0.traza.length .WSDL_WSFE = .ok ())
    (hremote : env.FEParamGetCondicionIvaReceptor (st0.traza.length + 1)
        { auth := { Token := cred.token, Sign := cred.sign, Cuit := env.AFIP_CUIT },
          ClaseCmp := some "A" }
        = .ok (some { Err := [], CondicionIvaReceptor := conds }))
    (hne : conds ≠ [])
    (hB : ∀ c ∈ conds, c.Cmp_Clase = some "B") :
    generarFactura env st cuitEmisor datosFactura
      = (.error (.receptorInvalido "A"),
          registrar env (registrar env st0 (.createClient .WSDL_WSFE))
            (.FEParamGetCondicionIvaReceptor
              { auth := { Token := cred.token, Sign := cred.sign, Cuit := env.AFIP_CUIT },
                ClaseCmp := some "A" })) ∧
    solicitudesCAE (registrar env (registrar env st0 (.createClient .WSDL_WSFE))
        (.FEParamGetCondicionIvaReceptor
          { auth := { Token := cred.token, Sign := cred.sign, Cuit := env.AFIP_CUIT },
            ClaseCmp := some "A" })).traza
      = solicitudesCAE st.traza := by
  have hcond := consultarCondicionIvaReceptor_remote env st st0 "A" cred conds (by decide)
    hauth hclient hremote hne
  have hclase : claseDe datosFactura = "A" := by simp [claseDe, hA]
  have hany : conds.any (esDeClase "A") = false := by
    rw [List.any_eq_false]
    intro c hc
    simp [esDeClase, hB c hc]
  constructor
  · simp [generarFactura, hclase, hcond, hany]
  · have h0 := obtenerTokenSign_solicitudes env st st0 _ _ hauth
    simp [solicitudesCAE_append, solicitudesCAE, h0]

theorem generarFactura_class_A_needs_class_A_condition_witness :
    (generarFactura (entornoCondiciones [condicionB]) estadoInicial none facturaA).1
      = .error (.receptorInvalido "A") :=
  congrArg Prod.fst (generarFactura_class_A_needs_class_A_condition
    (entornoCondiciones [condicionB]) estadoInicial
    (obtenerTokenSign (entornoCondiciones [condicionB]) estadoInicial "wsfe").2
    none facturaA { token := some "T", sign := some "S" } [condicionB]
    rfl rfl rfl rfl (by decide) (by decide)).1

theorem obtenerTokenSign_error (env : Entorno) (st st1 : Estado) (service : String)
    (e : Falla) (h : obtenerTokenSign env st service = (.error e, st1)) :
    e = .autenticacion := by
  unfold obtenerTokenSign at h
  split at h
  · simp at h
  · split at h
    · simp at h
    · simp only [Prod.mk.injEq, Except.error.injEq] at h
      exact h.1.symm

theorem solicitarCAE_no_expirada (env : Entorno) (st : Estado) (cuitEmisor : Option String)
    (datosFactura : DatosFactura) (c : CondicionIva) (f : String) :
    (solicitarCAE env st cuitEmisor datosFactura c).1 ≠ .error (.condicionExpirada f) := by
  unfold solicitarCAE
  dsimp only
  split
  · rename_i e s1 h1
    have := obtenerTokenSign_error env st s1 "wsfe" e h1
    subst this
    simp
  · repeat' split
    all_goals simp

/-- What `generarFactura` does with the selected condition `c`, the first returned one
whose class matches the invoice class, whatever its `FechaHasta`: when the test
`FechaHasta && new Date(FechaHasta) < fechaActual` holds at the clock right after the
tax-condition query, it fails with the expired-condition error and the authorization
endpoint is not invoked; when the test fails, it goes on to the authorization and never
fails with the expired-condition error. -/
theorem generarFactura_expiry_check (env : Entorno) (st st1 : Estado)
    (cuitEmisor : Option String) (datosFactura : DatosFactura)
    (conds : List CondicionIva) (c : CondicionIva)
    (hcond : consultarCondicionIvaReceptor env st (some (claseDe datosFactura))
      = (.ok (.condiciones conds), st1))
    (hsel : conds.find? (esDeClase (claseDe datosFactura)) = some c) :
    (haExpirado env st1.now c = true →
      generarFactura env st cuitEmisor datosFactura
        = (.error (.condicionExpirada (c.FechaHasta.getD "")), st1) ∧
      solicitudesCAE st1.traza = solicitudesCAE st.traza) ∧
    (haExpirado env st1.now c = false →
      generarFactura env st cuitEmisor datosFactura
        = solicitarCAE env st1 cuitEmisor datosFactura c ∧
      ∀ f, (generarFactura env st cuitEmisor datosFactura).1
        ≠ .error (.condicionExpirada f)) := by
  have hany : conds.any (esDeClase (claseDe datosFactura)) = true := by
    rw [List.any_eq_true]
    exact ⟨c, List.mem_of_find?_eq_some hsel, List.find?_some hsel⟩
  constructor
  · intro hexp
    refine ⟨?_, consultarCondicionIvaReceptor_solicitudes env st st1 _ _ hcond⟩
    simp [generarFactura, hcond, hany, hsel, hexp]
  · intro hexp
    have hgen : generarFactura env st cuitEmisor datosFactura
        = solicitarCAE env st1 cuitEmisor datosFactura c := by
      simp [generarFactura, hcond, hany, hsel, hexp]
    refine ⟨hgen, ?_⟩
    intro f
    rw [hgen]
    exact solicitarCAE_no_expirada env st1 cuitEmisor datosFactura c f

/-- C8: evaluation at the failing inputs, with the clock at 6 November 2026, 12:00 UTC.
A selected condition that ended on `20200101`, the date text of the gateway, is not
rejected: the `Date` constructor cannot read the text, the comparison is false, and
`generarFactura` submits the request to the authorization endpoint and returns its
response.  A selected condition that ends on `2026-11-06`, the current day, is rejected
as expired: the constructor reads midnight UTC, which is before the current instant.  A
condition that ended on `2026-11-05` is rejected as the claim says. -/
theorem generarFactura_expiry_at_gateway_dates :
    (generarFactura (entornoCondiciones [condicionHasta "20200101"]) estadoNoviembre none
        facturaPrueba).1 = .ok (some respuestaFeliz) ∧
    (solicitudesCAE (generarFactura (entornoCondiciones [condicionHasta "20200101"])
        estadoNoviembre none facturaPrueba).2.traza).length = 1 ∧
    (generarFactura (entornoCondiciones [condicionHasta "2026-11-06"]) estadoNoviembre none
        facturaPrueba).1 = .error (.condicionExpirada "2026-11-06") ∧
    (generarFactura (entornoCondiciones [condicionBVencida]) estadoNoviembre none
        facturaPrueba).1 = .error (.condicionExpirada "2026-11-05") :=
  ⟨rfl, rfl, rfl, rfl⟩

/-! ## A last-voucher response without data (C9) -/

/-- C9, as stated, fails: when the result object is present but has no `CbteNro`,
`getLastVoucher` returns `undefined` without an error, and `createNextVoucher` computes
`undefined + 1 = NaN`, submits it as `CbteDesde` and `CbteHasta`, and returns it as the
voucher number. -/
theorem createNextVoucher_missing_CbteNro_gives_NaN :
    (getLastVoucher (entornoUltimo none) estadoInicial (.number 1) 6).1 = .ok .undefined ∧
    (createNextVoucher (entornoUltimo none) estadoInicial facturaPrueba).1
      = .ok (.autorizacion (some "12345678901234") (some "20261116") .NaN) ∧
    (solicitudesCAE (createNextVoucher (entornoUltimo none) estadoInicial facturaPrueba).2.traza).map
        (fun request => request.FECAEDetRequest.map fun det => (det.CbteDesde, det.CbteHasta))
      = [[(.NaN, .NaN)]] :=
  ⟨rfl, rfl, rfl⟩

/-- C9, amended: when the last-voucher response has no `FECompUltimoAutorizadoResult`
object, `getLastVoucher` fails with the last-voucher error, `createNextVoucher` fails with
the same error, and nothing is submitted to the authorization endpoint. -/
theorem getLastVoucher_fails_without_result (env : Entorno) (st st0 : Estado)
    (data : DatosFactura) (cred : Credenciales)
    (hauth : obtenerTokenSign env st "wsfe" = (.ok cred, st0))
    (hclient : env.createClient st0.traza.length .WSDL_WSFE = .ok ())
    (hremote : env.FECompUltimoAutorizado (st0.traza.length + 1)
        { auth := { Token := cred.token, Sign := cred.sign, Cuit := env.AFIP_CUIT },
          PtoVta := data.FeCabReq.PtoVta, CbteTipo := data.FeCabReq.CbteTipo } = .ok none) :
    getLastVoucher env st data.FeCabReq.PtoVta data.FeCabReq.CbteTipo
      = (.error .ultimoComprobante,
          registrar env (registrar env st0 (.createClient .WSDL_WSFE))
            (.FECompUltimoAutorizado
              { auth := { Token := cred.token, Sign := cred.sign, Cuit := env.AFIP_CUIT },
                PtoVta := data.FeCabReq.PtoVta, CbteTipo := data.FeCabReq.CbteTipo })) ∧
    createNextVoucher env st data
      = (.error .ultimoComprobante,
          registrar env (registrar env st0 (.createClient .WSDL_WSFE))
            (.FECompUltimoAutorizado
              { auth := { Token := cred.token, Sign := cred.sign, Cuit := env.AFIP_CUIT },
                PtoVta := data.FeCabReq.PtoVta, CbteTipo := data.FeCabReq.CbteTipo })) ∧
    solicitudesCAE (registrar env (registrar env st0 (.createClient .WSDL_WSFE))
        (.FECompUltimoAutorizado
          { auth := { Token := cred.token, Sign := cred.sign, Cuit := env.AFIP_CUIT },
            PtoVta := data.FeCabReq.PtoVta, CbteTipo := data.FeCabReq.CbteTipo })).traza
      = solicitudesCAE st.traza := by
  have hno : esAlreadyAuthenticated .ultimoComprobante = false := by decide
  have hl : getLastVoucher env st data.FeCabReq.PtoVta data.FeCabReq.CbteTipo
      = (.error .ultimoComprobante,
          registrar env (registrar env st0 (.createClient .WSDL_WSFE))
            (.FECompUltimoAutorizado
              { auth := { Token := cred.token, Sign := cred.sign, Cuit := env.AFIP_CUIT },
                PtoVta := data.FeCabReq.PtoVta, CbteTipo := data.FeCabReq.CbteTipo })) := by
    simp [getLastVoucher, consultarUltimo, hauth, hclient, hremote, hno]
  refine ⟨hl, ?_, ?_⟩
  · simp [createNextVoucher, emitirSiguiente, hl, hno]
  · have h0 := obtenerTokenSign_solicitudes env st st0 _ _ hauth
    simp [solicitudesCAE_append, solicitudesCAE, h0]

theorem getLastVoucher_fails_without_result_witness :
    (createNextVoucher { entornoFeliz with FECompUltimoAutorizado := fun _ _ => .ok none }
        estadoInicial facturaPrueba).1 = .error .ultimoComprobante :=
  congrArg Prod.fst (getLastVoucher_fails_without_result
    { entornoFeliz with FECompUltimoAutorizado := fun _ _ => .ok none } estadoInicial
    (obtenerTokenSign entornoFeliz estadoInicial "wsfe").2 facturaPrueba
    { token := some "T", sign := some "S" } rfl rfl rfl).2.1

/-! ## Already-authenticated faults during the issuing of a voucher (C10) -/

/-- C10: evaluation at the failing inputs.  When the authorization call is rejected as
already authenticated, `createNextVoucher` clears the cache, logs in again and returns the
new session credential `{token, sign}`; the invoice was submitted once and is not
submitted again.  When the last-voucher call is rejected that way, `getLastVoucher`
returns the session credential as the last number, and the voucher number becomes the
text `[object Object]1`. -/
theorem createNextVoucher_returns_credentials_on_alreadyAuthenticated :
    (createNextVoucher entornoCAERechazada estadoInicial facturaPrueba).1
      = .ok (.credenciales { token := some "T", sign := some "S" }) ∧
    (solicitudesCAE
      (createNextVoucher entornoCAERechazada estadoInicial facturaPrueba).2.traza).length = 1 ∧
    llamadasLogin (createNextVoucher entornoCAERechazada estadoInicial facturaPrueba).2.traza
      = 2 ∧
    (getLastVoucher entornoUltimoRechazado estadoInicial (.number 1) 6).1
      = .ok (.credenciales { token := some "T", sign := some "S" }) ∧
    (createNextVoucher entornoUltimoRechazado estadoInicial facturaPrueba).1
      = .ok (.autorizacion (some "12345678901234") (some "20261116")
          (.string "[object Object]1")) :=
  ⟨rfl, rfl, rfl, rfl, rfl⟩

/-! ## The numbers on the submitted lines (C13) -/

theorem createNextVoucher_solicitudes (env : Entorno) (st : Estado) (data : DatosFactura) :
    solicitudesCAE (createNextVoucher env st data).2.traza
      = solicitudesCAE (emitirSiguiente env st data).2.traza := by
  unfold createNextVoucher
  split
  · rename_i r s1 h1
    rw [h1]
  · rename_i e s1 h1
    rw [h1]
    split
    · split
      · rename_i c s2 h2
        exact manejarErrorAutenticacion_solicitudes env s1 s2 e "wsfe" _ h2
      · rename_i e2 s2 h2
        exact manejarErrorAutenticacion_solicitudes env s1 s2 e "wsfe" _ h2
    · rfl

theorem emitirSiguiente_estado (env : Entorno) (st st1 : Estado) (data data1 : DatosFactura)
    (last : UltimoComprobante)
    (hlast : getLastVoucher env st data.FeCabReq.PtoVta data.FeCabReq.CbteTipo
      = (.ok last, st1))
    (hline : asignarNumero data (masUno last) = some data1) :
    (emitirSiguiente env st data).2 = (generarFactura env st1 env.AFIP_CUIT data1).2 := by
  simp only [emitirSiguiente, hlast, hline]
  split
  · rename_i h; rw [h]
  · rename_i h; rw [h]
  · rename_i h; rw [h]
    split <;> rfl

/-- C13, as stated, fails: with two detail lines under a header that announces two and the
remote last number 999999, the submitted request carries 1000000 on the first line only;
the second line goes out with the numbers 7 and 8 that the caller gave it. -/
theorem createNextVoucher_second_line_keeps_its_numbers :
    (solicitudesCAE (createNextVoucher entornoFeliz estadoInicial facturaLote).2.traza).map
        (fun request => request.FECAEDetRequest.map fun det => (det.CbteDesde, det.CbteHasta))
      = [[(.number 1000000, .number 1000000), (.number 7, .number 8)]] :=
  rfl

/-- C13, amended: for a request with `k >= 1` detail lines (`k` equal to `CantReg`) and
remote last number `n`, once the steps before the authorization call have succeeded,
`createNextVoucher` submits exactly one request to the authorization endpoint; it has `k`
lines, the first line carries `CbteDesde = CbteHasta = n + 1`, and every other line carries
the `CbteDesde` and `CbteHasta` the caller gave it. -/
theorem createNextVoucher_numbers_first_line (env : Entorno) (st st1 st2 st3 : Estado)
    (data : DatosFactura) (det : Det) (resto : List Det) (n : Int)
    (conds : List CondicionIva) (c : CondicionIva) (cred : Credenciales)
    (hlines : data.FeDetReq = det :: resto)
    (hcant : ((det :: resto).length : Int) = data.FeCabReq.CantReg)
    (hlast : getLastVoucher env st data.FeCabReq.PtoVta data.FeCabReq.CbteTipo
      = (.ok (.number n), st1))
    (hsafe : (n + 1).natAbs < 2 ^ 53)
    (hcond : consultarCondicionIvaReceptor env st1 (some (claseDe data))
      = (.ok (.condiciones conds), st2))
    (hsel : conds.find? (esDeClase (claseDe data)) = some c)
    (hvig : haExpirado env st2.now c = false)
    (hauth : obtenerTokenSign env st2 "wsfe" = (.ok cred, st3))
    (hclient : env.createClient st3.traza.length .WSDL_WSFE = .ok ()) :
    ∃ request, solicitudesCAE (createNextVoucher env st data).2.traza
        = solicitudesCAE st.traza ++ [request] ∧
      request.FECAEDetRequest.length = resto.length + 1 ∧
      request.FECAEDetRequest.map (fun d => (d.CbteDesde, d.CbteHasta))
        = (Valor.number (n + 1), Valor.number (n + 1))
            :: resto.map (fun d => (d.CbteDesde, d.CbteHasta)) := by
  have hline : asignarNumero data (masUno (.number n))
      = some { data with FeDetReq :=
          { det with CbteDesde := .number (n + 1), CbteHasta := .number (n + 1) } :: resto } := by
    simp [asignarNumero, hlines, masUno, sumaNumeros_exacta n hsafe]
  have hany : conds.any (esDeClase (claseDe data)) = true := by
    rw [List.any_eq_true]
    exact ⟨c, List.mem_of_find?_eq_some hsel, List.find?_some hsel⟩
  have hlen : ((resto.length : Int) + 1) = data.FeCabReq.CantReg := by
    simpa using hcant
  have h1 := getLastVoucher_solicitudes env st st1 _ _ _ hlast
  have h2 := consultarCondicionIvaReceptor_solicitudes env st1 st2 _ _ hcond
  have h3 := obtenerTokenSign_solicitudes env st2 st3 _ _ hauth
  refine ⟨{ auth := { Token := cred.token, Sign := cred.sign, Cuit := env.AFIP_CUIT },
            FeCabReq := { CantReg := data.FeCabReq.CantReg, PtoVta := data.FeCabReq.PtoVta,
                          CbteTipo := data.FeCabReq.CbteTipo },
            FECAEDetRequest := List.map (aDetRequest c)
              ({ det with CbteDesde := .number (n + 1), CbteHasta := .number (n + 1) }
                :: resto) }, ?_, by simp, ?_⟩
  · rw [createNextVoucher_solicitudes, emitirSiguiente_estado env st st1 data _ _ hlast hline]
    simp only [generarFactura, claseDe] at hcond hsel hany ⊢
    simp only [hcond, hany, hsel, hvig, solicitarCAE, hauth, hclient]
    simp [hlen]
    split <;> simp [solicitudesCAE_append, solicitudesCAE, h1, h2, h3]
  · simp [aDetRequest, Function.comp_def]

theorem createNextVoucher_numbers_first_line_witness :
    ∃ request,
      solicitudesCAE (createNextVoucher entornoFeliz estadoInicial facturaLote).2.traza
        = solicitudesCAE estadoInicial.traza ++ [request] ∧
      request.FECAEDetRequest.length
        = [{ detPrueba with CbteDesde := .number 7, CbteHasta := .number 8 }].length + 1 ∧
      request.FECAEDetRequest.map (fun d => (d.CbteDesde, d.CbteHasta))
        = (Valor.number (999999 + 1), Valor.number (999999 + 1))
            :: [{ detPrueba with CbteDesde := .number 7, CbteHasta := .number 8 }].map
                (fun d => (d.CbteDesde, d.CbteHasta)) :=
  createNextVoucher_numbers_first_line entornoFeliz estadoInicial
    (getLastVoucher entornoFeliz estadoInicial (.number 1) 6).2
    (consultarCondicionIvaReceptor entornoFeliz
      (getLastVoucher entornoFeliz estadoInicial (.number 1) 6).2 (some "B")).2
    (consultarCondicionIvaReceptor entornoFeliz
      (getLastVoucher entornoFeliz estadoInicial (.number 1) 6).2 (some "B")).2
    facturaLote detPrueba [{ detPrueba with CbteDesde := .number 7, CbteHasta := .number 8 }]
    999999 [condicionB] condicionB { token := some "T", sign := some "S" }
    rfl (by decide) rfl (by decide) rfl rfl rfl rfl rfl

/-! ## The background sweep and the lookup (C14) -/

theorem mapGet_none_of_not_mem (cache : TokenCache) (key : String)
    (h : key ∉ cache.map Prod.fst) : mapGet cache key = none := by
  induction cache with
  | nil => rfl
  | cons kv rest ih =>
    obtain ⟨k, v⟩ := kv
    simp only [List.map_cons, List.mem_cons, not_or] at h
    simp [mapGet, Ne.symm h.1, ih h.2]

theorem mapDelete_append_cons (hechas resto : TokenCache) (k : String) (v : EntradaCache)
    (h : k ∉ hechas.map Prod.fst) :
    mapDelete (hechas ++ (k, v) :: resto) k = hechas ++ resto := by
  induction hechas with
  | nil => simp [mapDelete]
  | cons kv rest ih =>
    obtain ⟨k0, v0⟩ := kv
    simp only [List.map_cons, List.mem_cons, not_or] at h
    simp [mapDelete, Ne.symm h.1, ih h.2]

theorem barrido_foldl (now : Int) (resto hechas : TokenCache)
    (h : clavesUnicas (hechas ++ resto)) :
    resto.foldl
        (fun cache entrada =>
          if now - entrada.2.timestamp > TOKEN_CACHE_DURATION then mapDelete cache entrada.1
          else cache)
        (hechas ++ resto)
      = hechas ++ resto.filter
          (fun entrada => !decide (now - entrada.2.timestamp > TOKEN_CACHE_DURATION)) := by
  induction resto generalizing hechas with
  | nil => simp
  | cons kv rest ih =>
    obtain ⟨k, v⟩ := kv
    have hk : k ∉ hechas.map Prod.fst := by
      unfold clavesUnicas at h
      rw [List.map_append, List.nodup_append] at h
      intro hmem
      exact h.2.2 hmem (by simp)
    by_cases hv : now - v.timestamp > TOKEN_CACHE_DURATION
    · have h2 : clavesUnicas (hechas ++ rest) := by
        unfold clavesUnicas at h ⊢
        rw [List.map_append, List.nodup_append] at h ⊢
        refine ⟨h.1, (List.nodup_cons.mp h.2.1).2, ?_⟩
        intro a ha hb
        exact h.2.2 ha (List.mem_cons_of_mem _ hb)
      simp only [List.foldl_cons, hv, if_true, mapDelete_append_cons hechas rest k v hk]
      rw [ih hechas h2]
      simp [List.filter_cons, hv]
    · have h2 : clavesUnicas ((hechas ++ [(k, v)]) ++ rest) := by
        simpa using h
      simp only [List.foldl_cons, hv, if_false]
      have := ih (hechas ++ [(k, v)]) h2
      simp only [List.append_assoc, List.singleton_append] at this
      rw [this]
      simp [List.filter_cons, hv]

/-- On a cache without repeated keys the sweep keeps, in their order, exactly the entries
whose age does not exceed the validity window. -/
theorem cleanExpiredTokens_filter (st : Estado) (h : clavesUnicas st.tokenCache) :
    (cleanExpiredTokens st).tokenCache
      = st.tokenCache.filter
          (fun entrada => !decide (st.now - entrada.2.timestamp > TOKEN_CACHE_DURATION)) := by
  have := barrido_foldl st.now st.tokenCache [] (by simpa using h)
  simpa [cleanExpiredTokens] using this

theorem mapGet_filter (cache : TokenCache) (p : EntradaCache → Bool) (key : String)
    (h : clavesUnicas cache) :
    mapGet (cache.filter fun entrada => p entrada.2) key
      = (mapGet cache key).bind fun e => if p e then some e else none := by
  induction cache with
  | nil => rfl
  | cons kv rest ih =>
    obtain ⟨k, v⟩ := kv
    have hrest : clavesUnicas rest := (List.nodup_cons.mp h).2
    have hk : k ∉ rest.map Prod.fst := (List.nodup_cons.mp h).1
    by_cases hkey : k = key
    · subst hkey
      by_cases hp : p v = true
      · simp [List.filter_cons, hp, mapGet]
      · have hnone := mapGet_none_of_not_mem rest k hk
        simp [List.filter_cons, hp, mapGet, ih hrest, hnone]
    · by_cases hp : p v = true
      · simp [List.filter_cons, hp, mapGet, hkey, ih hrest]
      · simp [List.filter_cons, hp, mapGet, hkey, ih hrest]


/-- The only insertion into the cache keeps the keys distinct, so every cache the module
can reach from an empty one is a `Map`. -/
theorem mapSet_clavesUnicas (cache : TokenCache) (key : String) (v : EntradaCache)
    (h : clavesUnicas cache) : clavesUnicas (mapSet cache key v) := by
  have hkeys : ∀ (c : TokenCache) (k : String), k ∈ (mapSet c key v).map Prod.fst →
      k = key ∨ k ∈ c.map Prod.fst := by
    intro c
    induction c with
    | nil => intro k hk; simpa [mapSet] using hk
    | cons kv rest ih =>
      obtain ⟨k0, w⟩ := kv
      intro k hk
      by_cases h0 : k0 = key
      · simp [mapSet, h0] at hk ⊢
        tauto
      · simp only [mapSet, h0, if_false, List.map_cons, List.mem_cons] at hk ⊢
        rcases hk with hk | hk
        · exact Or.inr (Or.inl hk)
        · rcases ih k hk with h1 | h1
          · exact Or.inl h1
          · exact Or.inr (Or.inr h1)
  induction cache with
  | nil => simp [mapSet, clavesUnicas]
  | cons kv rest ih =>
    obtain ⟨k0, w⟩ := kv
    unfold clavesUnicas at h ih ⊢
    have hn := List.nodup_cons.mp h
    by_cases h0 : k0 = key
    · simpa [mapSet, h0] using h
    · simp only [mapSet, h0, if_false, List.map_cons, List.nodup_cons]
      refine ⟨?_, ih hn.2⟩
      intro hmem
      rcases hkeys rest k0 hmem with h1 | h1
      · exact h0 h1
      · exact hn.1 h1

theorem solicitarLogin_salvo_cache (env : Entorno) (st st' : Estado) (service cms : String)
    (hn : st.now = st'.now) (ht : st.traza = st'.traza) :
    (solicitarLogin env st service cms).1 = (solicitarLogin env st' service cms).1 ∧
    (solicitarLogin env st service cms).2.now = (solicitarLogin env st' service cms).2.now ∧
    (solicitarLogin env st service cms).2.traza
      = (solicitarLogin env st' service cms).2.traza := by
  unfold solicitarLogin
  simp only [registrar, guardarEnCache, hn, ht]
  cases env.loginCms st'.traza.length cms with
  | rechazo e => simp
  | lanza m => simp
  | parsed oc =>
    cases oc with
    | none => simp
    | some c => by_cases h : (!truthy c.token || !truthy c.sign) = true <;> simp [h]

theorem extraerDelError_salvo_cache (st st' : Estado) (service : String) (error : Falla)
    (hn : st.now = st'.now) (ht : st.traza = st'.traza) :
    (extraerDelError st service error).1 = (extraerDelError st' service error).1 ∧
    (extraerDelError st service error).2.now = (extraerDelError st' service error).2.now ∧
    (extraerDelError st service error).2.traza
      = (extraerDelError st' service error).2.traza := by
  unfold extraerDelError
  by_cases h : esAlreadyAuthenticated error = true
  · cases hd : error.detail <;> simp [h, guardarEnCache, hn, ht]
  · simp [h, hn, ht]

/-- The login path reads the clock and the log, never the cache: two states that differ
only in the cache give the same result. -/
theorem loginWsaa_salvo_cache (env : Entorno) (st st' : Estado) (service : String)
    (hn : st.now = st'.now) (ht : st.traza = st'.traza) :
    (loginWsaa env st service).1 = (loginWsaa env st' service).1 := by
  unfold loginWsaa
  simp only [registrar, hn, ht]
  cases env.crearCMS st'.traza.length service with
  | none => rfl
  | some cms =>
    simp only []
    cases env.createClient (st'.traza ++ [Llamada.crearCMS service]).length Wsdl.WSAA_WSDL with
    | error e => rfl
    | ok u =>
      simp only []
      have hs := solicitarLogin_salvo_cache env
        { tokenCache := st.tokenCache,
          now := st'.now + (env.demora st'.traza.length : Int)
            + (env.demora (st'.traza ++ [Llamada.crearCMS service]).length : Int),
          traza := st'.traza ++ [Llamada.crearCMS service]
            ++ [Llamada.createClient Wsdl.WSAA_WSDL] }
        { tokenCache := st'.tokenCache,
          now := st'.now + (env.demora st'.traza.length : Int)
            + (env.demora (st'.traza ++ [Llamada.crearCMS service]).length : Int),
          traza := st'.traza ++ [Llamada.crearCMS service]
            ++ [Llamada.createClient Wsdl.WSAA_WSDL] }
        service cms rfl rfl
      revert hs
      generalize solicitarLogin env _ service cms = A
      generalize solicitarLogin env _ service cms = B
      obtain ⟨a1, a2⟩ := A
      obtain ⟨b1, b2⟩ := B
      intro hs
      simp only at hs
      obtain ⟨h1, h2, h3⟩ := hs
      subst h1
      cases a1 with
      | ok c => rfl
      | error e => exact (extraerDelError_salvo_cache a2 b2 service e h2 h3).1

/-- C14: on a cache without repeated keys, the sweep run at time `s = st.now` keeps, in
their order and unchanged, exactly the entries whose age at `s` does not exceed 11 minutes;
an entry it removes is one the lookup of `obtenerTokenSign` already rejects at `s`; at
every time `t >= s` the lookup gives the same result, for every service, on the swept and
on the unswept cache, and so does `obtenerTokenSign` itself; an entry whose age is exactly
11 minutes is kept by the sweep and rejected by the lookup. -/
theorem cleanExpiredTokens_agrees_with_lookup (st : Estado) (t : Int)
    (hmap : clavesUnicas st.tokenCache) (hlater : st.now ≤ t) :
    (cleanExpiredTokens st).tokenCache
      = st.tokenCache.filter
          (fun entrada => !decide (st.now - entrada.2.timestamp > 660000)) ∧
    (∀ service e, mapGet st.tokenCache service = some e →
      mapGet (cleanExpiredTokens st).tokenCache service ≠ some e →
      mapGet (cleanExpiredTokens st).tokenCache service = none ∧
      tokenEnCache st service = none) ∧
    (∀ service, tokenEnCache { cleanExpiredTokens st with now := t } service
      = tokenEnCache { st with now := t } service) ∧
    (∀ env service,
      (obtenerTokenSign env { cleanExpiredTokens st with now := t } service).1
        = (obtenerTokenSign env { st with now := t } service).1) ∧
    (∀ service e, mapGet st.tokenCache service = some e → st.now - e.timestamp = 660000 →
      mapGet (cleanExpiredTokens st).tokenCache service = some e ∧
      tokenEnCache st service = none) := by
  have hfil := cleanExpiredTokens_filter st hmap
  have hD : TOKEN_CACHE_DURATION = 660000 := by decide
  have hget : ∀ service, mapGet (cleanExpiredTokens st).tokenCache service
      = (mapGet st.tokenCache service).bind fun e =>
          if st.now - e.timestamp > 660000 then none else some e := by
    intro service
    rw [hfil, hD]
    have := mapGet_filter st.tokenCache
      (fun e => !decide (st.now - e.timestamp > 660000)) service hmap
    rw [this]
    cases mapGet st.tokenCache service with
    | none => rfl
    | some e => by_cases h : st.now - e.timestamp > 660000 <;> simp [h] <;> omega
  have hlook : ∀ service, tokenEnCache { cleanExpiredTokens st with now := t } service
      = tokenEnCache { st with now := t } service := by
    intro service
    simp only [tokenEnCache, hget service, hD]
    cases mapGet st.tokenCache service with
    | none => rfl
    | some e =>
      by_cases h : st.now - e.timestamp > 660000
      · have : ¬ t - e.timestamp < 660000 := by omega
        simp [h, this]
      · simp [h]
  refine ⟨by rw [hfil, hD], ?_, hlook, ?_, ?_⟩
  · intro service e he hne
    rw [hget service, he] at hne ⊢
    by_cases h : st.now - e.timestamp > 660000
    · have : ¬ st.now - e.timestamp < 660000 := by omega
      simp [h, tokenEnCache, he, hD, this]
    · simp [h] at hne
  · intro env service
    have hl := hlook service
    unfold obtenerTokenSign
    rw [hl]
    cases tokenEnCache { st with now := t } service with
    | some c => rfl
    | none =>
      have hc := loginWsaa_salvo_cache env { cleanExpiredTokens st with now := t }
        { st with now := t } service rfl rfl
      revert hc
      generalize loginWsaa env { cleanExpiredTokens st with now := t } service = A
      generalize loginWsaa env { st with now := t } service = B
      obtain ⟨a1, a2⟩ := A
      obtain ⟨b1, b2⟩ := B
      intro hc
      simp only at hc
      subst hc
      cases a1 <;> rfl
  · intro service e he hage
    have h1 : ¬ st.now - e.timestamp > 660000 := by omega
    have h2 : ¬ st.now - e.timestamp < 660000 := by omega
    refine ⟨?_, ?_⟩
    · rw [hget service, he]
      simp [h1]
    · simp [tokenEnCache, he, hD, h2]

theorem cleanExpiredTokens_agrees_with_lookup_witness :
    (cleanExpiredTokens estadoTresEntradas).tokenCache
      = [("wsfe", { credentials := { token := some "T0", sign := some "S0" },
                    timestamp := 340000 }),
         ("ws_sr_constancia_inscripcion",
           { credentials := { token := some "T1", sign := some "S1" }, timestamp := 900000 })] ∧
    tokenEnCache { cleanExpiredTokens estadoTresEntradas with now := 1000001 } "wsfe"
      = tokenEnCache { estadoTresEntradas with now := 1000001 } "wsfe" :=
  ⟨rfl, (cleanExpiredTokens_agrees_with_lookup estadoTresEntradas 1000001
    (by decide) (by decide)).2.2.1 "wsfe"⟩

/-! ## Net amount and tax of an invoice (C11) -/

theorem pot2_eq_zpow (e : Int) : pot2 e = (2 : ℚ) ^ e := by
  unfold pot2
  split
  · rename_i h
    conv_rhs => rw [← Int.toNat_of_nonneg h]
    rw [zpow_natCast]
  · rename_i h
    have h' : 0 ≤ -e := by omega
    have : e = -((-e).toNat : Int) := by rw [Int.toNat_of_nonneg h']; ring
    conv_rhs => rw [this]
    rw [zpow_neg, zpow_natCast, one_div]

theorem pot2_pos (e : Int) : 0 < pot2 e := by
  rw [pot2_eq_zpow]; positivity

theorem pot2_succ (e : Int) : pot2 (e + 1) = 2 * pot2 e := by
  rw [pot2_eq_zpow, pot2_eq_zpow, zpow_add_one₀ (by norm_num : (2 : ℚ) ≠ 0)]; ring

theorem pot2_mono {a b : Int} (h : a ≤ b) : pot2 a ≤ pot2 b := by
  rw [pot2_eq_zpow, pot2_eq_zpow]
  exact zpow_le_zpow_right₀ (by norm_num) h

theorem pot2_lt {a b : Int} (h : pot2 a < pot2 b) : a < b := by
  by_contra hc
  exact absurd (pot2_mono (not_lt.mp hc)) (not_le.mpr h)

theorem pot2_sub (a b : Int) : pot2 (a - b) = pot2 a / pot2 b := by
  rw [pot2_eq_zpow, pot2_eq_zpow, pot2_eq_zpow, zpow_sub₀ (by norm_num : (2 : ℚ) ≠ 0)]

/-- The exponent brackets the number between two consecutive powers of two. -/
theorem exponente_spec (m : ℚ) (hm : 0 < m) :
    pot2 (exponente m) ≤ m ∧ m < pot2 (exponente m + 1) := by
  have hnum : 0 < m.num := Rat.num_pos.mpr hm
  have hp : (m.num.natAbs : Int) = m.num := Int.natAbs_of_nonneg hnum.le
  have hpne : m.num.natAbs ≠ 0 := by omega
  have hqne : m.den ≠ 0 := m.den_nz
  have hp1 := Nat.log2_self_le hpne
  have hp2 := @Nat.lt_log2_self m.num.natAbs
  have hq1 := Nat.log2_self_le hqne
  have hq2 := @Nat.lt_log2_self m.den
  have hm_eq : m = (m.num.natAbs : ℚ) / (m.den : ℚ) := by
    have h0 := Rat.num_div_den m
    have h1 : (m.num : ℚ) = ((m.num.natAbs : Int) : ℚ) := by rw [hp]
    rw [h1, Int.cast_natCast] at h0
    exact h0.symm
  have hden : (0 : ℚ) < m.den := by exact_mod_cast Nat.pos_of_ne_zero hqne
  set a := Nat.log2 m.num.natAbs
  set b := Nat.log2 m.den
  have hp1' : (2 : ℚ) ^ a ≤ m.num.natAbs := by exact_mod_cast hp1
  have hp2' : (m.num.natAbs : ℚ) < 2 ^ (a + 1) := by exact_mod_cast hp2
  have hq1' : (2 : ℚ) ^ b ≤ m.den := by exact_mod_cast hq1
  have hq2' : (m.den : ℚ) < 2 ^ (b + 1) := by exact_mod_cast hq2
  have hlow : pot2 ((a : Int) - b - 1) ≤ m := by
    rw [pot2_eq_zpow, show ((a : Int) - b - 1) = (a : Int) - ((b + 1 : ℕ) : Int) by push_cast; ring,
      zpow_sub₀ (by norm_num : (2 : ℚ) ≠ 0), zpow_natCast, zpow_natCast, hm_eq]
    rw [div_le_div_iff₀ (by positivity) hden]
    calc (2 : ℚ) ^ a * m.den ≤ m.num.natAbs * m.den := by
          apply mul_le_mul_of_nonneg_right hp1' hden.le
      _ ≤ m.num.natAbs * 2 ^ (b + 1) := by
          apply mul_le_mul_of_nonneg_left hq2'.le (by positivity)
  have hhigh : m < pot2 ((a : Int) - b + 1) := by
    rw [pot2_eq_zpow, show ((a : Int) - b + 1) = ((a + 1 : ℕ) : Int) - (b : Int) by push_cast; ring,
      zpow_sub₀ (by norm_num : (2 : ℚ) ≠ 0), zpow_natCast, zpow_natCast]
    conv_lhs => rw [hm_eq]
    rw [div_lt_div_iff₀ hden (by positivity)]
    calc (m.num.natAbs : ℚ) * 2 ^ b < 2 ^ (a + 1) * 2 ^ b := by
          apply mul_lt_mul_of_pos_right hp2' (by positivity)
      _ ≤ 2 ^ (a + 1) * m.den := by
          apply mul_le_mul_of_nonneg_left hq1' (by positivity)
  unfold exponente
  simp only []
  split
  · rename_i h
    refine ⟨hlow, ?_⟩
    have : (a : Int) - b - 1 + 1 = (a : Int) - b := by ring
    rw [this]
    exact h
  · rename_i h
    exact ⟨not_lt.mp h, hhigh⟩

theorem exponente_unico (m : ℚ) (e : Int) (hm : 0 < m) (h1 : pot2 e ≤ m)
    (h2 : m < pot2 (e + 1)) : exponente m = e := by
  obtain ⟨s1, s2⟩ := exponente_spec m hm
  have ha : e < exponente m + 1 := pot2_lt (lt_of_le_of_lt h1 s2)
  have hb : exponente m < e + 1 := pot2_lt (lt_of_le_of_lt s1 h2)
  omega


theorem redondearPar_cota (k : ℚ) : |(redondearPar k : ℚ) - k| ≤ 1 / 2 := by
  have h1 := Int.floor_le k
  have h2 := Int.lt_floor_add_one k
  unfold redondearPar
  simp only []
  split
  · rename_i h
    rw [abs_le]; constructor <;> linarith
  · split
    · rename_i h
      rw [abs_le]; push_cast; constructor <;> linarith
    · rename_i ha hb
      have hk : k - ⌊k⌋ = 1 / 2 := le_antisymm (not_lt.mp hb) (not_lt.mp ha)
      split
      · rw [abs_le]; constructor <;> linarith
      · rw [abs_le]; push_cast; constructor <;> linarith

theorem redondearPar_eq (k : ℚ) (n : Int) (h : |k - n| < 1 / 2) : redondearPar k = n := by
  have h1 := redondearPar_cota k
  rw [abs_lt] at h
  rw [abs_le] at h1
  have ha : ((redondearPar k : Int) : ℚ) < (n : ℚ) + 1 := by linarith
  have hb : (n : ℚ) < (redondearPar k : ℚ) + 1 := by linarith
  have ha' : redondearPar k < n + 1 := by exact_mod_cast ha
  have hb' : n < redondearPar k + 1 := by exact_mod_cast hb
  omega

/-- A certificate for the double nearest to a positive rational: the exponent `e` and the
integer `n` of the significand. -/
theorem redondearRacional_eq (x r : ℚ) (e n : Int) (hx : 0 < x) (h1 : pot2 e ≤ x)
    (h2 : x < pot2 (e + 1)) (he : -1022 ≤ e) (hn : |x / pot2 (e - 52) - n| < 1 / 2)
    (hr : r = n * pot2 (e - 52)) (hfin : r < pot2 1024) :
    redondearRacional x = .finito r := by
  unfold redondearRacional
  have hx0 : x ≠ 0 := ne_of_gt hx
  have habs : |x| = x := abs_of_pos hx
  have hexp : exponente x = e := exponente_unico x e hx h1 h2
  have hmax : max e (-1022) = e := max_eq_left he
  simp only [hx0, if_false, habs, hexp, hmax, redondearPar_eq _ n hn, ← hr,
    not_le.mpr hfin, not_lt.mpr hx.le]

/-- The double nearest to a positive rational in the normal range differs from it by at
most the fraction `2^-53` of it. -/
theorem redondearRacional_cota (x : ℚ) (hlo : 1 / 1024 ≤ x) (hhi : x ≤ 2 ^ 40) :
    ∃ r : ℚ, redondearRacional x = .finito r ∧
      x * (1 - 1 / 2 ^ 53) ≤ r ∧ r ≤ x * (1 + 1 / 2 ^ 53) := by
  have hx : 0 < x := lt_of_lt_of_le (by norm_num) hlo
  obtain ⟨s1, s2⟩ := exponente_spec x hx
  have he : -1022 ≤ exponente x := by
    have h10 : pot2 (-10) = 1 / 1024 := by rw [pot2_eq_zpow]; norm_num
    have : pot2 (-10) < pot2 (exponente x + 1) := by
      rw [h10]; exact lt_of_le_of_lt hlo s2
    have := pot2_lt this
    omega
  have hulp : pot2 (exponente x - 52) = pot2 (exponente x) / 2 ^ 52 := by
    rw [pot2_sub]
    congr 1
  have hupos : 0 < pot2 (exponente x - 52) := pot2_pos _
  have hk := redondearPar_cota (x / pot2 (exponente x - 52))
  rw [abs_le] at hk
  set n := redondearPar (x / pot2 (exponente x - 52))
  set ulp := pot2 (exponente x - 52)
  have hxk : x / ulp * ulp = x := div_mul_cancel₀ x (ne_of_gt hupos)
  have hr1 : x - ulp / 2 ≤ (n : ℚ) * ulp := by
    have := mul_le_mul_of_nonneg_right hk.1 hupos.le
    nlinarith
  have hr2 : (n : ℚ) * ulp ≤ x + ulp / 2 := by
    have := mul_le_mul_of_nonneg_right hk.2 hupos.le
    nlinarith
  have hux : ulp / 2 ≤ x / 2 ^ 53 := by
    rw [hulp]
    have : pot2 (exponente x) / 2 ^ 52 / 2 = pot2 (exponente x) / 2 ^ 53 := by ring
    rw [this]
    exact div_le_div_of_nonneg_right s1 (by positivity)
  have hfin : (n : ℚ) * ulp < pot2 1024 := by
    have h1024 : (2 : ℚ) ^ 41 ≤ pot2 1024 := by
      have : pot2 41 = 2 ^ 41 := by rw [pot2_eq_zpow]; norm_num
      rw [← this]
      exact pot2_mono (by norm_num)
    have : x / 2 ^ 53 ≤ x := div_le_self hx.le (by norm_num)
    have : (2 : ℚ) ^ 41 = 2 * 2 ^ 40 := by norm_num
    linarith
  refine ⟨(n : ℚ) * ulp, ?_, ?_, ?_⟩
  · unfold redondearRacional
    have hx0 : x ≠ 0 := ne_of_gt hx
    have habs : |x| = x := abs_of_pos hx
    have hmax : max (exponente x) (-1022) = exponente x := max_eq_left he
    simp only [hx0, if_false, habs, hmax, not_lt.mpr hx.le]
    rw [if_neg (not_le.mpr hfin)]
  · have : x * (1 - 1 / 2 ^ 53) = x - x / 2 ^ 53 := by ring
    linarith
  · have : x * (1 + 1 / 2 ^ 53) = x + x / 2 ^ 53 := by ring
    linarith


theorem entre_valor121 (m : ℚ) :
    m / valor121 = m * (1125899906842624 / 1362338887279575) := by
  unfold valor121
  field_simp

/-- For an amount of `a` cents, `a` up to `10^13`, held by a number within the rounding
error of a double, the route computes as net amount the double of the decimal
`⌊100 a / 121 + 1/2⌋ / 100`. -/
theorem netoDe_doble (a : Int) (ha : 0 < a) (hB : a ≤ 10 ^ 13) (m : ℚ)
    (hm1 : (a : ℚ) / 100 * (1 - 1 / 2 ^ 53) ≤ m)
    (hm2 : m ≤ (a : ℚ) / 100 * (1 + 1 / 2 ^ 53)) :
    netoDe (.finito m) = redondearRacional ((((200 * a + 121) / 242 : Int) : ℚ) / 100) := by
  have ha1 : (1 : ℚ) ≤ a := by exact_mod_cast ha
  have haB : (a : ℚ) ≤ 10 ^ 13 := by exact_mod_cast hB
  have hy := entre_valor121 m
  have hylo : 1 / 1024 ≤ m / valor121 := by
    rw [hy]
    norm_num at hm1 ⊢
    linarith
  have hyhi : m / valor121 ≤ 2 ^ 40 := by
    rw [hy]
    norm_num at hm2 ⊢
    linarith
  obtain ⟨q, hq, hq1, hq2⟩ := redondearRacional_cota (m / valor121) hylo hyhi
  rw [hy] at hq1 hq2
  have hdiv : 242 * ((200 * a + 121) / 242) + (200 * a + 121) % 242 = 200 * a + 121 :=
    Int.ediv_add_emod _ _
  have hr : 1 ≤ (200 * a + 121) % 242 ∧ (200 * a + 121) % 242 ≤ 241 := by omega
  set n := (200 * a + 121) / 242
  set r := (200 * a + 121) % 242
  have hdivq : 242 * (n : ℚ) + (r : ℚ) = 200 * (a : ℚ) + 121 := by exact_mod_cast hdiv
  have hr1 : (1 : ℚ) ≤ r := by exact_mod_cast hr.1
  have hr2 : (r : ℚ) ≤ 241 := by exact_mod_cast hr.2
  have hqpos : 0 ≤ q := by
    norm_num at hq1 hm1
    linarith
  have hqsmall : q < 10 ^ 21 := by
    norm_num at hq2 hm2 ⊢
    linarith
  have hfloor : ⌊q * 100 + 1 / 2⌋ = n := by
    rw [Int.floor_eq_iff]
    norm_num at hq1 hq2 hm1 hm2 ⊢
    constructor <;> linarith
  unfold netoDe Numero.entre121
  simp only [hq, aDosDecimales, abs_of_nonneg hqpos, not_le.mpr hqsmall, if_false,
    not_lt.mpr hqpos, hfloor]


/-- For the same amounts, when the net amount is smaller than the amount, the route
computes as tax the double of the decimal that is left after the net amount. -/
theorem ivaDe_doble (a : Int) (ha : 0 < a) (hB : a ≤ 10 ^ 13) (m : ℚ)
    (hm1 : (a : ℚ) / 100 * (1 - 1 / 2 ^ 53) ≤ m)
    (hm2 : m ≤ (a : ℚ) / 100 * (1 + 1 / 2 ^ 53))
    (hna : (200 * a + 121) / 242 < a) :
    ivaDe (.finito m)
      = redondearRacional (((a - (200 * a + 121) / 242 : Int) : ℚ) / 100) := by
  have haB : (a : ℚ) ≤ 10 ^ 13 := by exact_mod_cast hB
  have hn1 : 1 ≤ (200 * a + 121) / 242 := by omega
  unfold ivaDe
  rw [netoDe_doble a ha hB m hm1 hm2]
  set n := (200 * a + 121) / 242
  have hn1q : (1 : ℚ) ≤ n := by exact_mod_cast hn1
  have hnaq : (n : ℚ) + 1 ≤ a := by exact_mod_cast hna
  obtain ⟨nd, hnd, hnd1, hnd2⟩ := redondearRacional_cota ((n : ℚ) / 100)
    (by linarith) (by norm_num; linarith)
  rw [hnd]
  simp only [Numero.menos]
  obtain ⟨d, hd, hd1, hd2⟩ := redondearRacional_cota (m - nd)
    (by norm_num at hm1 hnd2 ⊢; linarith) (by norm_num at hm2 hnd1 ⊢; linarith)
  rw [hd]
  have hdpos : 0 ≤ d := by
    norm_num at hd1 hm1 hnd2
    linarith
  have hdsmall : d < 10 ^ 21 := by
    norm_num at hd2 hm2 hnd1 ⊢
    linarith
  have hfloor : ⌊d * 100 + 1 / 2⌋ = a - n := by
    rw [Int.floor_eq_iff]
    push_cast
    norm_num at hd1 hd2 hm1 hm2 hnd1 hnd2 ⊢
    constructor <;> linarith
  simp only [aDosDecimales, abs_of_nonneg hdpos, not_le.mpr hdsmall, if_false,
    not_lt.mpr hdpos, hfloor]

theorem redondearRacional_cero : redondearRacional 0 = .finito 0 := by
  simp [redondearRacional]

/-- For an amount of `a` cents, `a` up to `10^13`, read as the nearest double, net amount
and tax are the doubles of the decimals `⌊100 a / 121 + 1/2⌋ / 100` and of the rest. -/
theorem neto_iva_centavos (a : Int) (ha : 0 < a) (hB : a ≤ 10 ^ 13) :
    netoDe (redondearRacional ((a : ℚ) / 100))
      = redondearRacional ((((200 * a + 121) / 242 : Int) : ℚ) / 100) ∧
    ivaDe (redondearRacional ((a : ℚ) / 100))
      = redondearRacional (((a - (200 * a + 121) / 242 : Int) : ℚ) / 100) := by
  have ha1 : (1 : ℚ) ≤ a := by exact_mod_cast ha
  have haB : (a : ℚ) ≤ 10 ^ 13 := by exact_mod_cast hB
  obtain ⟨m, hm, hm1, hm2⟩ := redondearRacional_cota ((a : ℚ) / 100)
    (by linarith) (by norm_num; linarith)
  have hneto := netoDe_doble a ha hB m hm1 hm2
  refine ⟨by rw [hm]; exact hneto, ?_⟩
  by_cases hna : (200 * a + 121) / 242 < a
  · rw [hm]
    exact ivaDe_doble a ha hB m hm1 hm2 hna
  · have hn : (200 * a + 121) / 242 = a := by omega
    unfold ivaDe
    rw [hm, hneto, hn, ← hm, hm]
    have : ((a - a : Int) : ℚ) / 100 = 0 := by simp
    rw [this]
    simp [Numero.menos, redondearRacional_cero, aDosDecimales]
    norm_num [Int.floor_eq_iff, redondearRacional_cero]


/-- A certificate for `parseFloat(x.toFixed(2))` at a number that is not negative. -/
theorem aDosDecimales_eq (q : ℚ) (c : Int) (h0 : 0 ≤ q) (h1 : q < 10 ^ 21)
    (hc1 : (c : ℚ) ≤ q * 100 + 1 / 2) (hc2 : q * 100 + 1 / 2 < c + 1) :
    aDosDecimales (.finito q) = redondearRacional ((c : ℚ) / 100) := by
  have hfloor : ⌊q * 100 + 1 / 2⌋ = c := by
    rw [Int.floor_eq_iff]
    exact ⟨hc1, hc2⟩
  simp only [aDosDecimales, abs_of_nonneg h0, not_le.mpr h1, if_false, not_lt.mpr h0, hfloor]

theorem doble_552477599581_54 :
    redondearRacional (55247759958154 / 100) = .finito (565737061971497 / 1024) := by
  refine redondearRacional_eq _ _ 39 4525896495771976 (by norm_num) ?_ ?_ (by norm_num) ?_ ?_ ?_
  all_goals simp only [pot2_eq_zpow]
  all_goals norm_num [abs_lt]

theorem doble_456593057505_41 :
    redondearRacional (45659305750541 / 100) = .finito (7480820654168637 / 16384) := by
  refine redondearRacional_eq _ _ 38 7480820654168637 (by norm_num) ?_ ?_ (by norm_num) ?_ ?_ ?_
  all_goals simp only [pot2_eq_zpow]
  all_goals norm_num [abs_lt]

theorem doble_456593057505_40 :
    redondearRacional (45659305750540 / 100) = .finito (3740410327084237 / 8192) := by
  refine redondearRacional_eq _ _ 38 7480820654168474 (by norm_num) ?_ ?_ (by norm_num) ?_ ?_ ?_
  all_goals simp only [pot2_eq_zpow]
  all_goals norm_num [abs_lt]

theorem neto_552477599581_54 :
    netoDe (.finito (565737061971497 / 1024)) = .finito (7480820654168637 / 16384) := by
  have hq : redondearRacional (565737061971497 / 1024 / valor121)
      = .finito (1870205163542139 / 4096) := by
    refine redondearRacional_eq _ _ 38 7480820654168556 (by norm_num [valor121]) ?_ ?_
      (by norm_num) ?_ ?_ ?_
    all_goals simp only [pot2_eq_zpow, valor121]
    all_goals norm_num [abs_lt]
  unfold netoDe
  simp only [Numero.entre121]
  rw [hq, aDosDecimales_eq _ 45659305750541 (by norm_num) (by norm_num) (by norm_num)
    (by norm_num), ← doble_456593057505_41]
  norm_num

theorem iva_552477599581_54 :
    ivaDe (.finito (565737061971497 / 1024)) = redondearRacional (9588454207613 / 100) := by
  have hd : redondearRacional (565737061971497 / 1024 - 7480820654168637 / 16384)
      = .finito (1570972337375315 / 16384) := by
    refine redondearRacional_eq _ _ 36 6283889349501260 (by norm_num) ?_ ?_
      (by norm_num) ?_ ?_ ?_
    all_goals simp only [pot2_eq_zpow]
    all_goals norm_num [abs_lt]
  unfold ivaDe
  rw [neto_552477599581_54]
  simp only [Numero.menos]
  rw [hd, aDosDecimales_eq _ 9588454207613 (by norm_num) (by norm_num) (by norm_num)
    (by norm_num)]
  norm_num

/-- In exact arithmetic the net amount of a positive amount of `a` cents is
`⌊100 a / 121 + 1/2⌋` cents. -/
theorem netoExacto_centavos (a : Int) :
    netoExacto ((a : ℚ) / 100) = (((200 * a + 121) / 242 : Int) : ℚ) / 100 := by
  unfold netoExacto redondeoExacto
  have h1 : (a : ℚ) / 100 / (121 / 100) * 100 + 1 / 2
      = ((200 * a + 121 : Int) : ℚ) / ((242 : ℕ) : ℚ) := by
    push_cast
    field_simp
    ring
  rw [h1, Rat.floor_intCast_div_natCast]
  rfl

/-- In exact arithmetic the tax of an amount of `a` cents is what is left after the net
amount. -/
theorem ivaExacto_centavos (a : Int) :
    ivaExacto ((a : ℚ) / 100) = ((a - (200 * a + 121) / 242 : Int) : ℚ) / 100 := by
  unfold ivaExacto
  rw [netoExacto_centavos]
  unfold redondeoExacto
  have h1 : ((a : ℚ) / 100 - (((200 * a + 121) / 242 : Int) : ℚ) / 100) * 100 + 1 / 2
      = ((a - (200 * a + 121) / 242 : Int) : ℚ) + 1 / 2 := by
    push_cast
    ring
  have h2 : ⌊((a - (200 * a + 121) / 242 : Int) : ℚ) + 1 / 2⌋ = a - (200 * a + 121) / 242 := by
    rw [Int.floor_eq_iff]
    constructor <;> norm_num
  rw [h1, h2]

/-- C11, counterexample: for the amount 552477599581.54 the exact net amount is
456593057505.40 and the exact tax 95884542076.14, while the route computes the doubles of
456593057505.41 and 95884542076.13, so the `Iva` line of its request does not carry the
exact net amount and tax. -/
theorem ticket_amounts_differ_from_exact_rounding :
    netoExacto (55247759958154 / 100) = 45659305750540 / 100 ∧
    ivaExacto (55247759958154 / 100) = 9588454207614 / 100 ∧
    netoDe (redondearRacional (55247759958154 / 100))
      = redondearRacional (45659305750541 / 100) ∧
    ivaDe (redondearRacional (55247759958154 / 100))
      = redondearRacional (9588454207613 / 100) ∧
    netoDe (redondearRacional (55247759958154 / 100))
      ≠ redondearRacional (netoExacto (55247759958154 / 100)) ∧
    (datosFacturaTicket
        { docTipoNum := .entero 99, docNroNum := .entero 0, tipFacNum := .entero 6,
          montoNum := redondearRacional (55247759958154 / 100) }
        "20261106" (some "1")).FeDetReq.map (fun linea => linea.Iva)
      = [[{ Id := 5, BaseImp := redondearRacional (45659305750541 / 100),
            Importe := redondearRacional (9588454207613 / 100) }]] := by
  have hne : netoExacto (55247759958154 / 100) = 45659305750540 / 100 := by
    have h := netoExacto_centavos 55247759958154
    norm_num at h ⊢
    exact h
  have hie : ivaExacto (55247759958154 / 100) = 9588454207614 / 100 := by
    have h := ivaExacto_centavos 55247759958154
    norm_num at h ⊢
    exact h
  have hn : netoDe (redondearRacional (55247759958154 / 100))
      = redondearRacional (45659305750541 / 100) := by
    rw [doble_552477599581_54, neto_552477599581_54, doble_456593057505_41]
  have hi : ivaDe (redondearRacional (55247759958154 / 100))
      = redondearRacional (9588454207613 / 100) := by
    rw [doble_552477599581_54, iva_552477599581_54]
  refine ⟨hne, hie, hn, hi, ?_, ?_⟩
  · rw [hn, hne, doble_456593057505_41, doble_456593057505_40]
    intro h
    injection h with h
    norm_num at h
  · simp only [datosFacturaTicket, List.map, hn, hi]

/-- C11 (amended): for a positive amount of `a` whole cents, `a` at most `10^13`, given as
the double nearest to it, the route computes as net amount and tax the doubles nearest to
`round(amount / 1.21, 2)` and `round(amount - net, 2)` taken in exact arithmetic; these
two decimals add up to the amount to the cent; the request of `POST /afip/ticket` carries
one `Iva` line with `Id` 5, `BaseImp` the net amount and `Importe` the tax; for the amount
100.00 (also the one of `POST /afip/ticket-test`) the net amount is 82.64 and the tax
17.36. -/
theorem ticket_net_plus_vat_up_to_bound (a : Int) (ha : 0 < a) (hB : a ≤ 10 ^ 13)
    (datosValidados : DatosValidados)
    (hmonto : datosValidados.montoNum = redondearRacional ((a : ℚ) / 100)) (fecha : String)
    (AFIP_PTO_VTA : Option String) :
    netoDe (redondearRacional ((a : ℚ) / 100))
      = redondearRacional (netoExacto ((a : ℚ) / 100)) ∧
    ivaDe (redondearRacional ((a : ℚ) / 100))
      = redondearRacional (ivaExacto ((a : ℚ) / 100)) ∧
    netoExacto ((a : ℚ) / 100) + ivaExacto ((a : ℚ) / 100) = (a : ℚ) / 100 ∧
    (datosFacturaTicket datosValidados fecha AFIP_PTO_VTA).FeDetReq.map (fun linea => linea.Iva)
      = [[{ Id := 5, BaseImp := redondearRacional (netoExacto ((a : ℚ) / 100)),
            Importe := redondearRacional (ivaExacto ((a : ℚ) / 100)) }]] ∧
    netoExacto 100 = 82.64 ∧
    ivaExacto 100 = 17.36 ∧
    (datosFacturaTicketTest fecha AFIP_PTO_VTA).FeDetReq.map (fun linea => linea.Iva)
      = [[{ Id := 5, BaseImp := redondearRacional 82.64,
            Importe := redondearRacional 17.36 }]] := by
  have hn : netoDe (redondearRacional ((a : ℚ) / 100))
      = redondearRacional (netoExacto ((a : ℚ) / 100)) := by
    rw [netoExacto_centavos]
    exact (neto_iva_centavos a ha hB).1
  have hi : ivaDe (redondearRacional ((a : ℚ) / 100))
      = redondearRacional (ivaExacto ((a : ℚ) / 100)) := by
    rw [ivaExacto_centavos]
    exact (neto_iva_centavos a ha hB).2
  have hne100 : netoExacto 100 = 82.64 := by
    have h := netoExacto_centavos 10000
    norm_num at h ⊢
    exact h
  have hie100 : ivaExacto 100 = 17.36 := by
    have h := ivaExacto_centavos 10000
    norm_num at h ⊢
    exact h
  have hn100 : netoDe (.finito 100) = redondearRacional 82.64 := by
    have h := netoDe_doble 10000 (by decide) (by norm_num) 100 (by norm_num) (by norm_num)
    norm_num at h ⊢
    exact h
  have hi100 : ivaDe (.finito 100) = redondearRacional 17.36 := by
    have h := ivaDe_doble 10000 (by decide) (by norm_num) 100 (by norm_num) (by norm_num)
      (by decide)
    norm_num at h ⊢
    exact h
  refine ⟨hn, hi, ?_, ?_, hne100, hie100, ?_⟩
  · rw [netoExacto_centavos, ivaExacto_centavos]
    push_cast
    ring
  · simp only [datosFacturaTicket, List.map, hmonto, hn, hi]
  · simp only [datosFacturaTicketTest, List.map, hn100, hi100]

theorem ticket_net_plus_vat_up_to_bound_witness :
    (0 : Int) < 123456 ∧ (123456 : Int) ≤ 10 ^ 13 ∧
    netoDe (redondearRacional (((123456 : Int) : ℚ) / 100))
      = redondearRacional (netoExacto (((123456 : Int) : ℚ) / 100)) ∧
    ivaDe (redondearRacional (((123456 : Int) : ℚ) / 100))
      = redondearRacional (ivaExacto (((123456 : Int) : ℚ) / 100)) :=
  ⟨by decide, by norm_num,
   (ticket_net_plus_vat_up_to_bound 123456 (by decide) (by norm_num)
      { docTipoNum := .entero 99, docNroNum := .entero 0, tipFacNum := .entero 6,
        montoNum := redondearRacional (((123456 : Int) : ℚ) / 100) } rfl "20261106"
      (some "1")).1,
   (ticket_net_plus_vat_up_to_bound 123456 (by decide) (by norm_num)
      { docTipoNum := .entero 99, docNroNum := .entero 0, tipFacNum := .entero 6,
        montoNum := redondearRacional (((123456 : Int) : ℚ) / 100) } rfl "20261106"
      (some "1")).2.1⟩

/-! ## What a valid request guarantees (C12) -/

/-- What the validator guarantees of a valid result: the invoice type is 1 or 6, the
amount is strictly positive, the document type is a non-negative integer or `Infinity`,
and the document number is 0 for document type 99 and otherwise a strictly positive
integer or `Infinity`. -/
theorem validarDatosFactura_valido (parseFloat : String → Numero) (datos : CuerpoFactura)
    (d : DatosValidados) (h : validarDatosFactura parseFloat datos = .valido d) :
    (d.tipFacNum = .entero 1 ∨ d.tipFacNum = .entero 6) ∧
    ((∃ n : Nat, d.docTipoNum = .entero n) ∨ d.docTipoNum = .infinito) ∧
    ((∃ q : ℚ, d.montoNum = .finito q ∧ 0 < q) ∨ d.montoNum = .infinito) ∧
    (d.docTipoNum = .entero 99 → d.docNroNum = .entero 0) ∧
    (d.docTipoNum ≠ .entero 99 →
      (∃ n : Nat, 0 < n ∧ d.docNroNum = .entero n) ∨ d.docNroNum = .infinito) := by
  unfold validarDatosFactura at h
  dsimp only at h
  by_cases h0 : datos.doctipo = .undefined ∨ datos.docnro = .undefined
      ∨ datos.monto.falsy = true ∨ datos.tipfac.falsy = true
  · rw [if_pos h0] at h
    exact absurd h (by simp)
  rw [if_neg h0] at h
  by_cases htipo : (parseInt datos.doctipo.aTexto).isNaN = true
      ∨ (parseInt datos.doctipo.aTexto).menorQueCero = true
  · rw [if_pos htipo] at h
    exact absurd h (by simp)
  rw [if_neg htipo] at h
  by_cases hnro : parseInt datos.doctipo.aTexto ≠ .entero 99
      ∧ ((if parseInt datos.doctipo.aTexto = .entero 99 then NumeroEntero.entero 0
            else parseInt datos.docnro.aTexto).isNaN = true
        ∨ (if parseInt datos.doctipo.aTexto = .entero 99 then NumeroEntero.entero 0
            else parseInt datos.docnro.aTexto).menorIgualCero = true)
  · rw [if_pos hnro] at h
    exact absurd h (by simp)
  rw [if_neg hnro] at h
  by_cases hfac : ¬ (parseInt datos.tipfac.aTexto = .entero 1
      ∨ parseInt datos.tipfac.aTexto = .entero 6)
  · rw [if_pos hfac] at h
    exact absurd h (by simp)
  rw [if_neg hfac] at h
  by_cases hmonto : (parseFloat datos.monto.aTexto).isNaN = true
      ∨ (parseFloat datos.monto.aTexto).menorIgualCero = true
  · rw [if_pos hmonto] at h
    exact absurd h (by simp)
  rw [if_neg hmonto] at h
  simp only [Validacion.valido.injEq] at h
  subst h
  have hfac' := not_not.mp hfac
  simp only [not_or, not_and] at htipo hnro hmonto
  refine ⟨hfac', ?_, ?_, ?_, ?_⟩
  · cases hp : parseInt datos.doctipo.aTexto with
    | NaN => simp [hp, NumeroEntero.isNaN] at htipo
    | entero z =>
      simp only [hp, NumeroEntero.menorQueCero, decide_eq_true_eq] at htipo
      exact Or.inl ⟨z.toNat, by rw [Int.toNat_of_nonneg (by omega)]⟩
    | infinito => exact Or.inr rfl
    | menosInfinito => simp [hp, NumeroEntero.menorQueCero] at htipo
  · cases hp : parseFloat datos.monto.aTexto with
    | NaN => simp [hp, Numero.isNaN] at hmonto
    | finito q =>
      simp only [hp, Numero.menorIgualCero, decide_eq_true_eq] at hmonto
      exact Or.inl ⟨q, rfl, not_le.mp hmonto.2⟩
    | infinito => exact Or.inr rfl
    | menosInfinito => simp [hp, Numero.menorIgualCero] at hmonto
  · intro h99
    show (if parseInt datos.doctipo.aTexto = .entero 99 then NumeroEntero.entero 0
      else parseInt datos.docnro.aTexto) = .entero 0
    rw [if_pos h99]
  · intro h99
    have h99' : parseInt datos.doctipo.aTexto ≠ .entero 99 := h99
    have hn := hnro h99'
    show (∃ n : Nat, 0 < n ∧ (if parseInt datos.doctipo.aTexto = .entero 99
        then NumeroEntero.entero 0 else parseInt datos.docnro.aTexto) = .entero n)
      ∨ (if parseInt datos.doctipo.aTexto = .entero 99 then NumeroEntero.entero 0
        else parseInt datos.docnro.aTexto) = .infinito
    rw [if_neg h99'] at hn ⊢
    cases hp : parseInt datos.docnro.aTexto with
    | NaN => simp [hp, NumeroEntero.isNaN] at hn
    | entero z =>
      simp only [hp, NumeroEntero.menorIgualCero, decide_eq_true_eq] at hn
      exact Or.inl ⟨z.toNat, by omega, by rw [Int.toNat_of_nonneg (by omega)]⟩
    | infinito => exact Or.inr rfl
    | menosInfinito => simp [hp, NumeroEntero.menorIgualCero] at hn

set_option exponentiation.threshold 1100 in
set_option maxRecDepth 100000 in
/-- C12: evaluation at the failing input.  For a document type written with 400 digits
`parseInt` gives `Infinity`, which is neither `NaN` nor negative, so the validator
declares the request valid with `docTipoNum = Infinity`, which is not an integer. -/
theorem validarDatosFactura_accepts_infinite_document_type :
    validarDatosFactura parseFloatMuestra cuerpoDocTipoEnorme
      = .valido { docTipoNum := .infinito, docNroNum := .entero 20111111112,
                  tipFacNum := .entero 6, montoNum := .finito 100 } := by
  decide

end Afip
